import Mathlib

/-!
Package envvar: loading a record from environment variables.

A shallow embedding of `src/env.go` (package `envvar`): the converter
registry (`Converter`, `ClearConverters`) and the loader (`Load`,
`decodePtrStruct`, `getFieldName`, `ptr`).

Modelling decisions:

* A Go value reached through reflection is a `GoValue`; a pointer owns its
  target (records form a tree: no aliasing and no cycles between records).
* Every record field is exported, hence settable through reflection; the
  specification puts unexported fields out of scope.
* Struct types are declared types printed `pkg.Name`; pointer types are the
  unnamed `*T`. Every other type (named non-struct types, slices, maps, ...)
  is `GoType.other` with its printed name; its values carry an uninterpreted
  payload whose `0` stands for the zero value.
* A `float64` is its IEEE-754 bit pattern, so that `IsZero` is `bits = 0`.
* A struct tag is the sequence of its `key:"value"` pairs; `Get` returns the
  value of the first pair with the key, or `""`.
* The process environment is a partial map from names to values.
* A run-time panic of the Go program is the result `Result.panicked`.
* A converter function is a total deterministic function of its argument; a
  `nil` function value stored in the registry is `none`.
* Of the standard library behind the converters of the tests, `strconv.Atoi`
  is modelled on all arguments and `strconv.ParseFloat` on the unsigned
  decimal integer literals only.
-/

namespace envvar

/-! ## Types and values under reflection -/

/-- The kinds of `reflect.Kind` the loader can tell apart; `Other` stands for
every remaining kind. -/
inductive ReflectKind where
  | Bool | Int | Float64 | String | Struct | Ptr | Other
  deriving DecidableEq, Repr

/-- A Go type as seen through `reflect.Type`. -/
inductive GoType where
  | bool
  | int
  | float64
  | string
  | struct (pkg name : String)
  | ptr (elem : GoType)
  | other (str : String)
  deriving DecidableEq, Repr

/-- The method `reflect.Type.Kind`. -/
def GoType.Kind : GoType → ReflectKind
  | .bool => .Bool
  | .int => .Int
  | .float64 => .Float64
  | .string => .String
  | .struct _ _ => .Struct
  | .ptr _ => .Ptr
  | .other _ => .Other

/-- The method `reflect.Type.String`: the printed form of the type. -/
def GoType.TypeString : GoType → String
  | .bool => "bool"
  | .int => "int"
  | .float64 => "float64"
  | .string => "string"
  | .struct pkg name => pkg ++ "." ++ name
  | .ptr elem => "*" ++ elem.TypeString
  | .other str => str

/-- The method `reflect.Type.Elem` on a pointer type; `none` where Go panics. -/
def GoType.Elem : GoType → Option GoType
  | .ptr elem => some elem
  | _ => none

/-- The struct tag `reflect.StructTag`, as its sequence of key/value pairs. -/
abbrev StructTag := List (String × String)

/-- The method `reflect.StructTag.Get`: the value of the first pair with the
key, or the empty string. -/
def StructTag.Get : StructTag → String → String
  | [], _ => ""
  | (k, v) :: rest, key => if k = key then v else StructTag.Get rest key

/-- The parts of `reflect.StructField` the loader reads; the field's type is
the type of the value it holds. -/
structure StructField where
  Name : String
  Tag : StructTag
  deriving DecidableEq, Repr

mutual
/-- A Go value. `nilPtr elem` is the nil pointer of type `*elem`, `ptr target`
a non-nil pointer to `target`, `other typ payload` a value of any other type
printed `typ`. -/
inductive GoValue where
  | bool (b : Bool)
  | int (n : Int)
  | float64 (bits : Nat)
  | string (s : String)
  | struct (pkg name : String) (fields : Fields)
  | nilPtr (elem : GoType)
  | ptr (target : GoValue)
  | other (typ : String) (payload : Nat)
/-- The fields of a struct value in declaration order, each with its
descriptor and the value it holds. -/
inductive Fields where
  | nil
  | cons (field : StructField) (val : GoValue) (rest : Fields)
end

/-- Concatenation of field sequences. -/
def Fields.append : Fields → Fields → Fields
  | .nil, ys => ys
  | .cons f v xs, ys => .cons f v (Fields.append xs ys)

instance : Append Fields := ⟨Fields.append⟩

/-- The dynamic type: `reflect.TypeOf(v)`, `reflect.Value.Type`. -/
def GoValue.TypeOf : GoValue → GoType
  | .bool _ => .bool
  | .int _ => .int
  | .float64 _ => .float64
  | .string _ => .string
  | .struct pkg name _ => .struct pkg name
  | .nilPtr elem => .ptr elem
  | .ptr target => .ptr target.TypeOf
  | .other typ _ => .other typ

mutual
/-- The method `reflect.Value.IsZero`. -/
def GoValue.IsZero : GoValue → Bool
  | .bool b => !b
  | .int n => n == 0
  | .float64 bits => bits == 0
  | .string s => s == ""
  | .struct _ _ fields => fields.allZero
  | .nilPtr _ => true
  | .ptr _ => false
  | .other _ payload => payload == 0
/-- Every field holds its zero value. -/
def Fields.allZero : Fields → Bool
  | .nil => true
  | .cons _ val rest => val.IsZero && rest.allZero
end

/-- The method `reflect.Value.IsNil` on a pointer; `none` for the kinds on
which Go panics (the loader only calls it on pointers). -/
def GoValue.IsNil : GoValue → Option Bool
  | .nilPtr _ => some true
  | .ptr _ => some false
  | _ => none

/-- The method `reflect.Value.Elem` on a pointer; `none` is the zero
`reflect.Value` obtained from a nil pointer (and the kinds where Go panics). -/
def GoValue.Elem : GoValue → Option GoValue
  | .ptr target => some target
  | _ => none

/-! ## Results -/

/-- How a call ends: it returns an `error` (`none` is nil, `some m` an error
with message `m`) leaving the memory it works on in state `st`, or the
program panics. -/
inductive Result (σ : Type) where
  | returned (err : Option String) (st : σ)
  | panicked (reason : String)

/-- The error returned, if the call returned one. -/
def Result.error? {σ : Type} : Result σ → Option String
  | .returned err _ => err
  | .panicked _ => none

/-- The state of a result transformed by `f`. -/
def Result.map {σ τ : Type} (f : σ → τ) : Result σ → Result τ
  | .returned err st => .returned err (f st)
  | .panicked reason => .panicked reason

/-- The method `reflect.Value.Set` on a settable field: the new value must be
assignable, that is, of the field's own type; otherwise Go panics. -/
def GoValue.Set (fieldVal x : GoValue) : Result GoValue :=
  if x.TypeOf = fieldVal.TypeOf then .returned none x
  else .panicked "reflect.Set: value is not assignable to the field type"

/-- The method `reflect.Value.SetString`: panics unless the kind is String. -/
def GoValue.SetString (fieldVal : GoValue) (x : String) : Result GoValue :=
  match fieldVal with
  | .string _ => .returned none (.string x)
  | _ => .panicked "reflect: call of reflect.Value.SetString on non-string Value"

/-! ## Globals: tag names and the converter registry (env.go 13-33) -/

/-- The type `ConverterFunc`, `func(string) (any, error)`: the `any` returned
(`none` is the nil interface) and the error (`none` is nil). -/
abbrev ConverterFunc := String → Option GoValue × Option String

/-- A Go `map[string]ConverterFunc`; a stored function value may be nil. -/
abbrev ConverterMap := String → Option (Option ConverterFunc)

/-- The package-level variables of env.go. -/
structure Globals where
  TagEnvVar : String
  TagDefault : String
  TagRequired : String
  TagConverter : String
  convFunctions : Option ConverterMap

/-- The package state at program start (env.go 13-22): the four tag names and
a nil `convFunctions`. -/
def Globals.initial : Globals :=
  ⟨"env", "default", "required", "converter", none⟩

/-- The lookup `convFunctions[key]` with the comma-ok form: a nil map has no
entry. -/
def lookupConverter (m : Option ConverterMap) (key : String) : Option (Option ConverterFunc) :=
  match m with
  | none => none
  | some entries => entries key

/-- The function `Converter` (env.go 24-29). -/
def Converter (key : String) (convFun : Option ConverterFunc) (g : Globals) : Globals :=
  let entries : ConverterMap :=
    match g.convFunctions with
    | none => fun _ => none
    | some m => m
  ⟨g.TagEnvVar, g.TagDefault, g.TagRequired, g.TagConverter,
    some (fun k => if k = key then some convFun else entries k)⟩

/-- The function `ClearConverters` (env.go 31-33). -/
def ClearConverters (g : Globals) : Globals :=
  ⟨g.TagEnvVar, g.TagDefault, g.TagRequired, g.TagConverter, none⟩

/-! ## The loader (env.go 35-122) -/

/-- The process environment: the value of each variable that is set. -/
abbrev Env := String → Option String

/-- The function `os.Getenv`: the value of the variable, `""` when unset. -/
def Getenv (env : Env) (key : String) : String :=
  match env key with
  | some v => v
  | none => ""

/-- The function `strings.ToLower` on the ASCII letters. No code point outside
ASCII lowers to one of `t`, `r`, `u`, `e`, so the comparison with `"true"`
in the loader is not affected by the restriction. -/
def ToLower (s : String) : String :=
  String.mk (s.data.map Char.toLower)

/-- The function `getFieldName` (env.go 116-118). -/
def getFieldName (structName : String) (field : StructField) : String :=
  structName ++ "." ++ field.Name

/-- The function `ptr` (env.go 120-122) at type string. -/
def ptr (v : String) : GoValue :=
  .ptr (.string v)

/-- The new value from envvar/default (env.go 66-75). -/
def newValueOf (g : Globals) (env : Env) (field : StructField) (fieldVal : GoValue) : String :=
  let varName := field.Tag.Get g.TagEnvVar
  let defaultValue := field.Tag.Get g.TagDefault
  let fromDefault := if defaultValue ≠ "" ∧ fieldVal.IsZero = true then defaultValue else ""
  if varName ≠ "" then
    if Getenv env varName ≠ "" then Getenv env varName else fromDefault
  else fromDefault

/-- The conversion or assignment of a non-empty new value (env.go 86-110). -/
def assignField (g : Globals) (structName : String) (field : StructField)
    (fieldVal : GoValue) (newValue : String) : Result GoValue :=
  let converter := field.Tag.Get g.TagConverter
  if converter ≠ "" then
    match lookupConverter g.convFunctions converter with
    | some (some convFunc) =>
      match convFunc newValue with
      | (_, some err) =>
        .returned (some (getFieldName structName field ++ " - " ++ err)) fieldVal
      | (none, none) =>
        .panicked "reflect: call of reflect.Value.Type on zero Value"
      | (some converted, none) =>
        if fieldVal.TypeOf.TypeString ≠ converted.TypeOf.TypeString then
          .returned (some (getFieldName structName field ++ " - incorrect converter")) fieldVal
        else fieldVal.Set converted
    | some none =>
      .panicked "invalid memory address or nil pointer dereference"
    | none =>
      .returned (some (getFieldName structName field ++ " - converter " ++ converter
        ++ " does not exist")) fieldVal
  else
    if fieldVal.TypeOf.TypeString = "string" then fieldVal.SetString newValue
    else if fieldVal.TypeOf.TypeString = "*string" then fieldVal.Set (ptr newValue)
    else .returned (some (getFieldName structName field
      ++ " - must define converter function for non string or *string field")) fieldVal

/-- The part of the loop body of `decodePtrStruct` after the nested descent
(env.go 66-110): value resolution, required check, no-op short-circuit, and
conversion or assignment. -/
def decodeField (g : Globals) (env : Env) (structName : String) (field : StructField)
    (fieldVal : GoValue) : Result GoValue :=
  let requiredVal := field.Tag.Get g.TagRequired
  let newValue := newValueOf g env field fieldVal
  if ToLower requiredVal = "true" ∧ fieldVal.IsZero = true ∧ newValue = "" then
    .returned (some (getFieldName structName field ++ " is required")) fieldVal
  else if newValue = "" then .returned none fieldVal
  else assignField g structName field fieldVal newValue

mutual
/-- The function `decodePtrStruct` (env.go 48-114) on the fields of a struct
value: the loop over the fields in declaration order, `structName` being
`structType.Name()`. The first error ends the loop; the fields processed so
far keep what was assigned to them. -/
def decodePtrStruct (g : Globals) (env : Env) (structName : String) : Fields → Result Fields
  | .nil => .returned none .nil
  | .cons field fieldVal rest =>
    match descend g env fieldVal with
    | .panicked reason => .panicked reason
    | .returned (some err) fieldVal1 => .returned (some err) (.cons field fieldVal1 rest)
    | .returned none fieldVal1 =>
      match decodeField g env structName field fieldVal1 with
      | .panicked reason => .panicked reason
      | .returned (some err) fieldVal2 => .returned (some err) (.cons field fieldVal2 rest)
      | .returned none fieldVal2 =>
        match decodePtrStruct g env structName rest with
        | .panicked reason => .panicked reason
        | .returned err rest1 => .returned err (.cons field fieldVal2 rest1)
/-- The nested descent (env.go 59-64): a field whose type is a pointer to a
struct and which is not nil has the struct it points to decoded first. -/
def descend (g : Globals) (env : Env) : GoValue → Result GoValue
  | .ptr (.struct pkg name fields) =>
    match decodePtrStruct g env name fields with
    | .panicked reason => .panicked reason
    | .returned err fields1 => .returned err (.ptr (.struct pkg name fields1))
  | fieldVal => .returned none fieldVal
end

/-- The function `Load` (env.go 35-46) on the argument `v` (`none` is the nil
interface). `reflect.TypeOf(nil)` is nil, so that `t.Kind()` panics; the call
`structVal.NumField()` that opens `decodePtrStruct` panics when `el` is not a
struct value. -/
def Load (g : Globals) (env : Env) (v : Option GoValue) : Result (Option GoValue) :=
  match v with
  | none => .panicked "invalid memory address or nil pointer dereference"
  | some x =>
    if x.TypeOf.Kind = .Ptr then
      match x.Elem with
      | some (.struct pkg name fields) =>
        match decodePtrStruct g env name fields with
        | .panicked reason => .panicked reason
        | .returned err fields1 => .returned err (some (.ptr (.struct pkg name fields1)))
      | some _ => .panicked "reflect: call of reflect.Value.NumField on non-struct Value"
      | none => .panicked "reflect: call of reflect.Value.NumField on zero Value"
    else .returned (some "must pass pointer to a struct") v

/-! ## The records and converters of env_test.go -/

/-- The tag of `Person.Name`. -/
def tagPersonName : StructTag := [("env", "PERSON_NAME"), ("required", "true")]

/-- The tag of `Person.Age`. -/
def tagPersonAge : StructTag :=
  [("env", "PERSON_AGE"), ("required", "true"), ("converter", "toAge")]

/-- The tag of `Person.Desc`. -/
def tagPersonDesc : StructTag := [("env", "PERSON_DESC")]

/-- The tag of `Car.Brand`. -/
def tagCarBrand : StructTag := [("env", "CAR_BRAND"), ("default", "Toyota")]

/-- The tag of `Car.Engine`. -/
def tagCarEngine : StructTag :=
  [("env", "CAR_ENGINE"), ("required", "true"), ("converter", "toFloat")]

/-- The tag of `Car.Model`. -/
def tagCarModel : StructTag := [("env", "CAR_MODEL")]

/-- The tag of `Car.Desc`. -/
def tagCarDesc : StructTag := [("env", "CAR_DESC")]

/-- A value of the struct type `Car` (env_test.go 18-23); `desc` is a value
of type `*string`. -/
def Car (brand : String) (engine : Nat) (model : String) (desc : GoValue) : GoValue :=
  .struct "envvar" "Car"
    (.cons ⟨"Brand", tagCarBrand⟩ (.string brand)
    (.cons ⟨"Engine", tagCarEngine⟩ (.float64 engine)
    (.cons ⟨"Model", tagCarModel⟩ (.string model)
    (.cons ⟨"Desc", tagCarDesc⟩ desc .nil))))

/-- A value of the struct type `Person` (env_test.go 11-16); `desc` is a
value of type `*string`, `car` one of type `*Car`. -/
def Person (name : String) (age : Int) (desc car : GoValue) : GoValue :=
  .struct "envvar" "Person"
    (.cons ⟨"Name", tagPersonName⟩ (.string name)
    (.cons ⟨"Age", tagPersonAge⟩ (.int age)
    (.cons ⟨"Desc", tagPersonDesc⟩ desc
    (.cons ⟨"Car", []⟩ car .nil))))

/-- The nil `*string`. -/
def nilString : GoValue := .nilPtr .string

/-- The nil `*Car`. -/
def nilCar : GoValue := .nilPtr (.struct "envvar" "Car")

/-- The literal `&Person{}`. -/
def newPerson : GoValue := .ptr (Person "" 0 nilString nilCar)

/-- The literal `&Car{}`. -/
def newCar : GoValue := .ptr (Car "" 0 "" nilString)

/-- The environment after `os.Clearenv()`. -/
def emptyEnv : Env := fun _ => none

/-- The function `os.Setenv`. -/
def Setenv (key value : String) (env : Env) : Env :=
  fun k => if k = key then some value else env k

/-- The value of a sequence of decimal digits read most significant first,
`none` when a character is not a digit. -/
def parseDigits : List Char → Nat → Option Nat
  | [], acc => some acc
  | c :: cs, acc =>
    if 48 ≤ c.toNat ∧ c.toNat ≤ 57 then parseDigits cs (acc * 10 + (c.toNat - 48)) else none

/-- The function `strconv.Atoi`: an optional sign and decimal digits in the
range of a 64-bit `int`; the result is the number or the error message (in
which the argument is quoted as it stands). -/
def Atoi (s : String) : Except String Int :=
  let syntaxError := "strconv.Atoi: parsing \"" ++ s ++ "\": invalid syntax"
  let rangeError := "strconv.Atoi: parsing \"" ++ s ++ "\": value out of range"
  let digits (cs : List Char) (neg : Bool) : Except String Int :=
    match cs with
    | [] => .error syntaxError
    | _ =>
      match parseDigits cs 0 with
      | none => .error syntaxError
      | some n =>
        if neg then (if n ≤ 2 ^ 63 then .ok (-(n : Int)) else .error rangeError)
        else (if n < 2 ^ 63 then .ok (n : Int) else .error rangeError)
  match s.data with
  | '-' :: cs => digits cs true
  | '+' :: cs => digits cs false
  | cs => digits cs false

/-- The converter `toAge` of `registerConverts` (env_test.go 129-138). -/
def toAge : ConverterFunc := fun s =>
  match Atoi s with
  | .error e => (some (.int 0), some e)
  | .ok a => if a < 10 then (some (.int 0), some "age must be larger than 10")
    else (some (.int a), none)

/-- The first converter registered as `toAge` in `TestRequired`
(env_test.go 37-39): it returns its argument. -/
def toAgeIdentity : ConverterFunc := fun s => (some (.string s), none)

/-- The exponent of the highest power of two that is at most `n`, for
`1 ≤ n < 2 ^ fuel`. -/
def log2Floor : Nat → Nat → Nat
  | 0, _ => 0
  | fuel + 1, n => if n < 2 then 0 else log2Floor fuel (n / 2) + 1

/-- The IEEE-754 binary64 bit pattern of a natural number below `2 ^ 53`,
which a float64 holds exactly. -/
def float64OfNat (n : Nat) : Nat :=
  if n = 0 then 0
  else (1023 + log2Floor 64 n) * 2 ^ 52 + (n - 2 ^ log2Floor 64 n) * 2 ^ (52 - log2Floor 64 n)

/-- The function `strconv.ParseFloat(s, 64)` on the unsigned decimal integer
literals below `2 ^ 53` (the arguments of the tests are of this form): the bit
pattern of the number. Every other argument gets the syntax error, which is
what strconv answers to an argument that is not a number; signed, fractional,
exponent and hexadecimal literals, infinities, NaN and the integers from
`2 ^ 53` on are not modelled. -/
def ParseFloat (s : String) : Except String Nat :=
  let syntaxError := "strconv.ParseFloat: parsing \"" ++ s ++ "\": invalid syntax"
  match s.data with
  | [] => .error syntaxError
  | cs =>
    match parseDigits cs 0 with
    | some n => if n < 2 ^ 53 then .ok (float64OfNat n) else .error syntaxError
    | none => .error syntaxError

/-- The converter `toFloat` of `registerConverts` (env_test.go 139-141). -/
def toFloat : ConverterFunc := fun s =>
  match ParseFloat s with
  | .error e => (some (.float64 0), some e)
  | .ok bits => (some (.float64 bits), none)

/-- The function `registerConverts` (env_test.go 128-143). -/
def registerConverts (g : Globals) : Globals :=
  Converter "toFloat" (some toFloat) (Converter "toAge" (some toAge) g)

/-- The environment of `TestNested` (env_test.go 72-84). -/
def nestedEnv : Env :=
  Setenv "CAR_DESC" "nothing to say" (Setenv "CAR_MODEL" "Camry" (Setenv "CAR_ENGINE" "2"
    (Setenv "PERSON_DESC" "Nice person" (Setenv "PERSON_AGE" "17"
      (Setenv "PERSON_NAME" "Tom" emptyEnv)))))

/-! ## Notions used to state the claims -/

/-- The required tag of the field is "true" ignoring case (env.go 78). -/
def isRequired (g : Globals) (field : StructField) : Bool :=
  decide (ToLower (field.Tag.Get g.TagRequired) = "true")

/-- The fields with the values they hold, as a list. -/
def Fields.toList : Fields → List (StructField × GoValue)
  | .nil => []
  | .cons field val rest => (field, val) :: rest.toList

/-- The fields before the first required field. -/
def Fields.beforeRequired (g : Globals) : Fields → Fields
  | .nil => .nil
  | .cons field val rest =>
    if isRequired g field = true then .nil else .cons field val (rest.beforeRequired g)

/-- The fields from the first required field on. -/
def Fields.fromRequired (g : Globals) : Fields → Fields
  | .nil => .nil
  | .cons field val rest =>
    if isRequired g field = true then .cons field val rest else rest.fromRequired g

/-- What holds of a field after a successful `Load`, `before` being the value
it held when its tags were processed and `after` the value it holds at the
end: if the field is required, it does not hold the zero value of its type,
unless it has a converter tag, a non-empty new value was resolved for it, and
the registered converter returned for that new value the very value the field
now holds. -/
def requiredSettled (g : Globals) (env : Env) (field : StructField)
    (before after : GoValue) : Prop :=
  isRequired g field = true →
    after.IsZero = false
      ∨ (field.Tag.Get g.TagConverter ≠ "" ∧ newValueOf g env field before ≠ ""
        ∧ ∃ convFunc : ConverterFunc,
            lookupConverter g.convFunctions (field.Tag.Get g.TagConverter)
              = some (some convFunc)
            ∧ convFunc (newValueOf g env field before) = (some after, none))

mutual
/-- Every field of the record satisfies `requiredSettled` between the record
before `Load` (`Fields` on the left) and after it (on the right), and so does
every field of every nested record that is descended into, between that
record before the descent and as the descent leaves it. -/
def Fields.allRequiredSettled (g : Globals) (env : Env) : Fields → Fields → Prop
  | .nil, .nil => True
  | .cons field val rest, .cons _ val1 rest1 =>
    requiredSettled g env field val val1 ∧ val.nestedRequiredSettled g env
      ∧ rest.allRequiredSettled g env rest1
  | .nil, .cons _ _ _ => False
  | .cons _ _ _, .nil => False
/-- The record behind a non-nil pointer to a record, which `Load` descends
into, is decoded without error and has `allRequiredSettled`. -/
def GoValue.nestedRequiredSettled (g : Globals) (env : Env) : GoValue → Prop
  | .ptr (.struct _ name fields) =>
    ∃ fields1, decodePtrStruct g env name fields = .returned none fields1
      ∧ fields.allRequiredSettled g env fields1
  | _ => True
end

/-! ## Auxiliary facts -/

theorem Fields.nil_append (ys : Fields) : (Fields.nil ++ ys) = ys := rfl

theorem Fields.cons_append (f : StructField) (v : GoValue) (xs ys : Fields) :
    (Fields.cons f v xs ++ ys) = Fields.cons f v (xs ++ ys) := rfl

/-- A value that holds its zero value is not a non-nil pointer: the nested
descent leaves it alone. -/
theorem descend_of_isZero (g : Globals) (env : Env) (v : GoValue) (h : v.IsZero = true) :
    descend g env v = .returned none v := by
  cases v <;> simp [descend, GoValue.IsZero] at h ⊢

/-- The nested descent applies exactly under the condition of env.go 59. -/
theorem descend_condition (v : GoValue) :
    (∃ pkg name fields, v = .ptr (.struct pkg name fields)) ↔
      (v.TypeOf.Kind = .Ptr ∧ v.TypeOf.Elem.map GoType.Kind = some .Struct
        ∧ v.IsNil = some false) := by
  constructor
  · rintro ⟨pkg, name, fields, rfl⟩
    simp [GoValue.TypeOf, GoType.Kind, GoType.Elem, GoValue.IsNil]
  · intro h
    cases v with
    | ptr target =>
      cases target <;> simp [GoValue.TypeOf, GoType.Kind, GoType.Elem] at h ⊢
    | _ => simp [GoValue.TypeOf, GoType.Kind, GoValue.IsNil] at h

/-- A value that is not a non-nil pointer to a struct is not descended into. -/
theorem descend_of_not_ptr_struct (g : Globals) (env : Env) (v : GoValue)
    (h : ∀ pkg name fields, v ≠ .ptr (.struct pkg name fields)) :
    descend g env v = .returned none v := by
  cases v with
  | ptr target =>
    cases target with
    | struct pkg name fields => exact absurd rfl (h pkg name fields)
    | _ => simp [descend]
  | _ => simp [descend]

/-- The loop over a concatenation: once the first part is decoded without
error, the loop goes on with the second part. -/
theorem decodePtrStruct_append (g : Globals) (env : Env) (structName : String) (rest : Fields) :
    ∀ (pre pre1 : Fields), decodePtrStruct g env structName pre = .returned none pre1 →
      decodePtrStruct g env structName (pre ++ rest)
        = (decodePtrStruct g env structName rest).map (fun rest1 => pre1 ++ rest1)
  | .nil, pre1, h => by
    simp only [decodePtrStruct, Result.returned.injEq, true_and] at h
    subst h
    rw [Fields.nil_append]
    cases decodePtrStruct g env structName rest <;> simp [Result.map, Fields.nil_append]
  | .cons f v xs, pre1, h => by
    rw [Fields.cons_append]
    simp only [decodePtrStruct] at h ⊢
    cases hd : descend g env v with
    | panicked reason => simp [hd] at h
    | returned err v1 =>
      cases err with
      | some e => simp [hd] at h
      | none =>
        simp only [hd] at h ⊢
        cases hf : decodeField g env structName f v1 with
        | panicked reason => simp [hf] at h
        | returned err v2 =>
          cases err with
          | some e => simp [hf] at h
          | none =>
            simp only [hf] at h ⊢
            cases hx : decodePtrStruct g env structName xs with
            | panicked reason => simp [hx] at h
            | returned err xs1 =>
              simp only [hx, Result.returned.injEq] at h
              obtain ⟨rfl, rfl⟩ := h
              rw [decodePtrStruct_append g env structName rest xs xs1 hx]
              cases decodePtrStruct g env structName rest <;>
                simp [Result.map, Fields.cons_append]

/-- One turn of the loop: after a prefix decoded without error and a nested
descent without error, the result is that of the field's own tags, and on
success that of the remaining fields. -/
theorem decodePtrStruct_at_field (g : Globals) (env : Env) (structName : String)
    (pre pre1 post : Fields) (f : StructField) (v v1 : GoValue)
    (hpre : decodePtrStruct g env structName pre = .returned none pre1)
    (hdesc : descend g env v = .returned none v1) :
    decodePtrStruct g env structName (pre ++ .cons f v post)
      = match decodeField g env structName f v1 with
        | .panicked reason => .panicked reason
        | .returned (some err) v2 => .returned (some err) (pre1 ++ .cons f v2 post)
        | .returned none v2 =>
          (decodePtrStruct g env structName post).map (fun post1 => pre1 ++ .cons f v2 post1) := by
  rw [decodePtrStruct_append g env structName _ pre pre1 hpre]
  simp only [decodePtrStruct, hdesc]
  cases hf : decodeField g env structName f v1 with
  | panicked reason => simp [Result.map]
  | returned err v2 =>
    cases err with
    | some e => simp [Result.map]
    | none =>
      cases decodePtrStruct g env structName post <;> simp [Result.map]

/-- The call `Load` on a non-nil pointer to a struct is `decodePtrStruct` on
its fields. -/
theorem Load_ptr_struct (g : Globals) (env : Env) (pkg name : String) (fields : Fields) :
    Load g env (some (.ptr (.struct pkg name fields)))
      = (decodePtrStruct g env name fields).map
          (fun fields1 => some (.ptr (.struct pkg name fields1))) := by
  simp only [Load, GoValue.TypeOf, GoType.Kind, GoValue.Elem, if_true]
  cases decodePtrStruct g env name fields <;> simp [Result.map]

/-- An argument that is not a pointer gets the error of env.go 42. -/
theorem Load_not_pointer (g : Globals) (env : Env) (x : GoValue) (h : x.TypeOf.Kind ≠ .Ptr) :
    Load g env (some x) = .returned (some "must pass pointer to a struct") (some x) := by
  simp [Load, h]

/-- A nil pointer passes the check of env.go 38; `NumField` then panics. -/
theorem Load_nil_pointer (g : Globals) (env : Env) (elem : GoType) :
    Load g env (some (.nilPtr elem))
      = .panicked "reflect: call of reflect.Value.NumField on zero Value" := by
  simp [Load, GoValue.TypeOf, GoType.Kind, GoValue.Elem]

/-- A pointer to a value that is not a struct passes the check of env.go 38;
`NumField` then panics. -/
theorem Load_pointer_to_non_struct (g : Globals) (env : Env) (target : GoValue)
    (h : ∀ pkg name fields, target ≠ .struct pkg name fields) :
    Load g env (some (.ptr target))
      = .panicked "reflect: call of reflect.Value.NumField on non-struct Value" := by
  cases target with
  | struct pkg name fields => exact absurd rfl (h pkg name fields)
  | _ => simp [Load, GoValue.TypeOf, GoType.Kind, GoValue.Elem]

/-- The nested descent changes neither the type of the field nor whether it
holds its zero value. -/
theorem descend_preserves (g : Globals) (env : Env) (v v1 : GoValue) (err : Option String)
    (h : descend g env v = .returned err v1) :
    v1.TypeOf = v.TypeOf ∧ v1.IsZero = v.IsZero := by
  cases v with
  | ptr target =>
    cases target with
    | struct pkg name fields =>
      simp only [descend] at h
      cases hd : decodePtrStruct g env name fields with
      | panicked reason => simp [hd] at h
      | returned e fields1 =>
        simp only [hd, Result.returned.injEq] at h
        obtain ⟨_, rfl⟩ := h
        simp [GoValue.TypeOf, GoValue.IsZero]
    | _ =>
      simp only [descend, Result.returned.injEq] at h
      obtain ⟨_, rfl⟩ := h
      exact ⟨rfl, rfl⟩
  | _ =>
    simp only [descend, Result.returned.injEq] at h
    obtain ⟨_, rfl⟩ := h
    exact ⟨rfl, rfl⟩

/-- The new value depends on the field's value only through `IsZero`. -/
theorem newValueOf_congr (g : Globals) (env : Env) (f : StructField) (v v1 : GoValue)
    (h : v1.IsZero = v.IsZero) : newValueOf g env f v1 = newValueOf g env f v := by
  simp only [newValueOf, h]

/-- With a non-empty new value the field goes to conversion or assignment. -/
theorem decodeField_of_ne (g : Globals) (env : Env) (structName : String) (f : StructField)
    (v : GoValue) (h : newValueOf g env f v ≠ "") :
    decodeField g env structName f v = assignField g structName f v (newValueOf g env f v) := by
  simp [decodeField, h]

/-- With an empty new value the field is either reported as required or
skipped. -/
theorem decodeField_of_empty (g : Globals) (env : Env) (structName : String) (f : StructField)
    (v : GoValue) (h : newValueOf g env f v = "") :
    decodeField g env structName f v =
      if ToLower (f.Tag.Get g.TagRequired) = "true" ∧ v.IsZero = true then
        .returned (some (getFieldName structName f ++ " is required")) v
      else .returned none v := by
  simp [decodeField, h]

/-- An environment variable set to a non-empty string is the new value. -/
theorem newValueOf_env (g : Globals) (env : Env) (f : StructField) (v : GoValue) (e : String)
    (hvar : f.Tag.Get g.TagEnvVar ≠ "") (henv : env (f.Tag.Get g.TagEnvVar) = some e)
    (hne : e ≠ "") : newValueOf g env f v = e := by
  simp [newValueOf, hvar, Getenv, henv, hne]

/-- Without a default that applies and without an environment value there is
no new value. -/
theorem newValueOf_none (g : Globals) (env : Env) (f : StructField) (v : GoValue)
    (hdef : f.Tag.Get g.TagDefault = "" ∨ v.IsZero = false)
    (henv : f.Tag.Get g.TagEnvVar = "" ∨ Getenv env (f.Tag.Get g.TagEnvVar) = "") :
    newValueOf g env f v = "" := by
  have h1 : (if f.Tag.Get g.TagDefault ≠ "" ∧ v.IsZero = true
      then f.Tag.Get g.TagDefault else "") = "" := by
    rcases hdef with h | h <;> simp [h]
  simp only [newValueOf, h1]
  rcases henv with h | h <;> simp [h]

/-- Two messages built on the same qualified field name are equal only if
their endings are. -/
theorem append_left_cancel_string (a b c : String) (h : a ++ b = a ++ c) : b = c := by
  have h1 : (a ++ b).data = (a ++ c).data := by rw [h]
  simp only [String.data_append] at h1
  exact String.ext (List.append_cancel_left h1)

/-! ## The claims -/

/-- C1 (the code departs from the claim): `Load` on a pointer to a non-struct
(`new(int)`) and on a nil pointer to a struct (`(*Person)(nil)`) does not
return the error "must pass pointer to a struct": the program panics in
`NumField`. Only a non-pointer argument (here the string "x") gets the
error. -/
theorem C1_Load_panics_on_pointer_to_non_struct :
    Load Globals.initial emptyEnv (some (.ptr (.int 0)))
        = .panicked "reflect: call of reflect.Value.NumField on non-struct Value"
      ∧ Load Globals.initial emptyEnv (some (.nilPtr (.struct "envvar" "Person")))
        = .panicked "reflect: call of reflect.Value.NumField on zero Value"
      ∧ Load Globals.initial emptyEnv (some (.string "x"))
        = .returned (some "must pass pointer to a struct") (some (.string "x")) := by
  refine ⟨rfl, rfl, rfl⟩

/-- C2: a field whose required tag is "true" ignoring case, that holds its
zero value and for which no new value is resolved (no default, no non-empty
environment value) makes `Load` fail with "<RecordName>.<FieldName> is
required" once the fields before it are decoded without error, whatever its
converter tag; the fields from this one on are left as they were. -/
theorem C2_required_field_without_value (g : Globals) (env : Env) (pkg name : String)
    (pre pre1 post : Fields) (f : StructField) (v : GoValue)
    (hpre : decodePtrStruct g env name pre = .returned none pre1)
    (hreq : ToLower (f.Tag.Get g.TagRequired) = "true")
    (hzero : v.IsZero = true)
    (hdef : f.Tag.Get g.TagDefault = "")
    (henv : f.Tag.Get g.TagEnvVar = "" ∨ Getenv env (f.Tag.Get g.TagEnvVar) = "") :
    Load g env (some (.ptr (.struct pkg name (pre ++ .cons f v post))))
      = .returned (some (name ++ "." ++ f.Name ++ " is required"))
          (some (.ptr (.struct pkg name (pre1 ++ .cons f v post)))) := by
  rw [Load_ptr_struct,
    decodePtrStruct_at_field g env name pre pre1 post f v v hpre (descend_of_isZero g env v hzero),
    decodeField_of_empty g env name f v (newValueOf_none g env f v (Or.inl hdef) henv)]
  simp [hreq, hzero, Result.map, getFieldName]

/-- C2, the two runs of `TestRequired`: `Load(&Person{})` with an empty
environment fails with "Person.Name is required", and with only
PERSON_NAME=Tom it fails with "Person.Age is required" (Age carries a
converter tag). -/
theorem C2_required_field_without_value_witness :
    Load Globals.initial emptyEnv (some newPerson)
        = .returned (some "Person.Name is required") (some newPerson)
      ∧ Load Globals.initial (Setenv "PERSON_NAME" "Tom" emptyEnv) (some newPerson)
        = .returned (some "Person.Age is required")
            (some (.ptr (Person "Tom" 0 nilString nilCar))) :=
  ⟨C2_required_field_without_value Globals.initial emptyEnv "envvar" "Person" .nil .nil
      (.cons ⟨"Age", tagPersonAge⟩ (.int 0)
        (.cons ⟨"Desc", tagPersonDesc⟩ nilString (.cons ⟨"Car", []⟩ nilCar .nil)))
      ⟨"Name", tagPersonName⟩ (.string "") rfl (by decide) rfl rfl (Or.inr rfl),
   C2_required_field_without_value Globals.initial (Setenv "PERSON_NAME" "Tom" emptyEnv)
      "envvar" "Person" (.cons ⟨"Name", tagPersonName⟩ (.string "") .nil)
      (.cons ⟨"Name", tagPersonName⟩ (.string "Tom") .nil)
      (.cons ⟨"Desc", tagPersonDesc⟩ nilString (.cons ⟨"Car", []⟩ nilCar .nil))
      ⟨"Age", tagPersonAge⟩ (.int 0) rfl (by decide) rfl rfl (Or.inr rfl)⟩

/-- C3: a string or *string field without converter tag whose env tag names a
variable set to a non-empty string `e` holds `e` (a *string field: a pointer
to a string equal to `e`) after `Load` has processed it, whatever its default
tag and its earlier value; `Load` then goes on with the remaining fields. -/
theorem C3_environment_overrides (g : Globals) (env : Env) (pkg name : String)
    (pre pre1 post : Fields) (f : StructField) (v : GoValue) (e : String)
    (hpre : decodePtrStruct g env name pre = .returned none pre1)
    (htype : v.TypeOf = .string ∨ v.TypeOf = .ptr .string)
    (hconv : f.Tag.Get g.TagConverter = "")
    (hvar : f.Tag.Get g.TagEnvVar ≠ "")
    (henv : env (f.Tag.Get g.TagEnvVar) = some e)
    (hne : e ≠ "") :
    Load g env (some (.ptr (.struct pkg name (pre ++ .cons f v post))))
      = (decodePtrStruct g env name post).map (fun post1 =>
          some (.ptr (.struct pkg name (pre1 ++
            .cons f (if v.TypeOf = .string then .string e else .ptr (.string e)) post1)))) := by
  have hnv := newValueOf_env g env f v e hvar henv hne
  have hdesc : descend g env v = .returned none v := by
    apply descend_of_not_ptr_struct
    intro p n fs hv
    subst hv
    rcases htype with h | h <;> simp [GoValue.TypeOf] at h
  rw [Load_ptr_struct, decodePtrStruct_at_field g env name pre pre1 post f v v hpre hdesc,
    decodeField_of_ne g env name f v (by rw [hnv]; exact hne), hnv]
  rcases htype with h | h
  · cases v <;> simp [GoValue.TypeOf] at h
    simp [assignField, hconv, GoValue.TypeOf, GoType.TypeString, GoValue.SetString]
    cases decodePtrStruct g env name post <;> simp [Result.map]
  · have hs : (GoType.ptr GoType.string).TypeString = "*string" := by decide
    have hs2 : ("*string" : String) ≠ "string" := by decide
    simp [assignField, hconv, h, hs, hs2, GoValue.Set, ptr, GoValue.TypeOf]
    cases decodePtrStruct g env name post <;> simp [Result.map]

/-- C3, the override of `Car.Brand`: default "Toyota", CAR_BRAND=Honda gives
"Honda" (here on a record that already holds an engine, with the remaining
fields untouched). -/
theorem C3_environment_overrides_witness :
    Load Globals.initial (Setenv "CAR_BRAND" "Honda" emptyEnv)
        (some (.ptr (Car "Ford" 1 "" nilString)))
      = .returned none (some (.ptr (Car "Honda" 1 "" nilString))) :=
  C3_environment_overrides Globals.initial (Setenv "CAR_BRAND" "Honda" emptyEnv) "envvar" "Car"
    .nil .nil
    (.cons ⟨"Engine", tagCarEngine⟩ (.float64 1)
      (.cons ⟨"Model", tagCarModel⟩ (.string "") (.cons ⟨"Desc", tagCarDesc⟩ nilString .nil)))
    ⟨"Brand", tagCarBrand⟩ (.string "Ford") "Honda" rfl (Or.inl rfl) rfl (by decide) rfl
    (by decide)

/-- C4 as stated fails: (1) `Car.Brand` has the default "Toyota" and
CAR_BRAND is unset, yet a record that already holds the brand "Ford" resolves
no new value and still holds "Ford" after a successful `Load`; (2) a string
field `City` with default "paris" and a converter tag holds what the
converter returns, "PARIS", after a successful `Load`. -/
theorem C4_counterexample :
    (StructTag.Get tagCarBrand Globals.initial.TagDefault = "Toyota"
      ∧ emptyEnv (StructTag.Get tagCarBrand Globals.initial.TagEnvVar) = none
      ∧ newValueOf Globals.initial emptyEnv ⟨"Brand", tagCarBrand⟩ (.string "Ford") = ""
      ∧ Load Globals.initial emptyEnv (some (.ptr (Car "Ford" 1 "" nilString)))
          = .returned none (some (.ptr (Car "Ford" 1 "" nilString))))
    ∧ Load (Converter "upper" (some (fun _ => (some (.string "PARIS"), none))) Globals.initial)
        emptyEnv
        (some (.ptr (.struct "envvar" "Shop"
          (.cons ⟨"City", [("default", "paris"), ("converter", "upper")]⟩ (.string "") .nil))))
      = .returned none
        (some (.ptr (.struct "envvar" "Shop"
          (.cons ⟨"City", [("default", "paris"), ("converter", "upper")]⟩
            (.string "PARIS") .nil)))) := by
  refine ⟨⟨rfl, rfl, rfl, rfl⟩, rfl⟩

/-- C4 (amended): for a field that has a default `d`, holds its zero value
and has no environment value (no env tag, or the variable unset or empty),
the new value `Load` resolves is `d`; if the field is a string field without
converter tag it holds `d` after `Load` has processed it, and `Load` goes on
with the remaining fields. -/
theorem C4_default_applies_to_zero_field (g : Globals) (env : Env) (pkg name : String)
    (pre pre1 post : Fields) (f : StructField) (v : GoValue) (d : String)
    (hpre : decodePtrStruct g env name pre = .returned none pre1)
    (hd : f.Tag.Get g.TagDefault = d)
    (hd0 : d ≠ "")
    (hzero : v.IsZero = true)
    (henv : f.Tag.Get g.TagEnvVar = "" ∨ Getenv env (f.Tag.Get g.TagEnvVar) = "") :
    newValueOf g env f v = d
      ∧ (v.TypeOf = .string → f.Tag.Get g.TagConverter = "" →
          Load g env (some (.ptr (.struct pkg name (pre ++ .cons f v post))))
            = (decodePtrStruct g env name post).map (fun post1 =>
                some (.ptr (.struct pkg name (pre1 ++ .cons f (.string d) post1))))) := by
  have hnv : newValueOf g env f v = d := by
    subst hd
    have h1 : (if f.Tag.Get g.TagDefault ≠ "" ∧ v.IsZero = true
        then f.Tag.Get g.TagDefault else "") = f.Tag.Get g.TagDefault := by
      simp [hd0, hzero]
    simp only [newValueOf, h1]
    rcases henv with h | h <;> simp [h]
  refine ⟨hnv, ?_⟩
  intro htype hconv
  rw [Load_ptr_struct,
    decodePtrStruct_at_field g env name pre pre1 post f v v hpre (descend_of_isZero g env v hzero),
    decodeField_of_ne g env name f v (by rw [hnv]; exact hd0), hnv]
  cases v <;> simp [GoValue.TypeOf] at htype
  simp [assignField, hconv, GoValue.TypeOf, GoType.TypeString, GoValue.SetString]
  cases decodePtrStruct g env name post <;> simp [Result.map]

/-- C4, the brand of `&Car{...}` with CAR_BRAND unset ends up "Toyota" (on a
record that already holds an engine). -/
theorem C4_default_applies_to_zero_field_witness :
    newValueOf Globals.initial emptyEnv ⟨"Brand", tagCarBrand⟩ (.string "") = "Toyota"
      ∧ Load Globals.initial emptyEnv (some (.ptr (Car "" 1 "" nilString)))
        = .returned none (some (.ptr (Car "Toyota" 1 "" nilString))) :=
  have h := C4_default_applies_to_zero_field Globals.initial emptyEnv "envvar" "Car" .nil .nil
    (.cons ⟨"Engine", tagCarEngine⟩ (.float64 1)
      (.cons ⟨"Model", tagCarModel⟩ (.string "") (.cons ⟨"Desc", tagCarDesc⟩ nilString .nil)))
    ⟨"Brand", tagCarBrand⟩ (.string "") "Toyota" rfl rfl (by decide) rfl (Or.inr rfl)
  ⟨h.1, h.2 rfl rfl⟩

/-- C5: a field whose converter tag `k` is registered to `fn`, for which a
non-empty new value `s` is resolved, where `fn s` is a value `x` of exactly
the field's type and no error, holds `x` after `Load` has processed it (the
fields before it and its nested descent having raised no error); `Load` then
goes on with the remaining fields. -/
theorem C5_converted_value_is_assigned (g : Globals) (env : Env) (pkg name : String)
    (pre pre1 post : Fields) (f : StructField) (v v1 x : GoValue) (k s : String)
    (fn : ConverterFunc)
    (hpre : decodePtrStruct g env name pre = .returned none pre1)
    (hdesc : descend g env v = .returned none v1)
    (hk : f.Tag.Get g.TagConverter = k)
    (hk0 : k ≠ "")
    (hreg : lookupConverter g.convFunctions k = some (some fn))
    (hs : newValueOf g env f v = s)
    (hs0 : s ≠ "")
    (hfn : fn s = (some x, none))
    (hty : x.TypeOf = v.TypeOf) :
    Load g env (some (.ptr (.struct pkg name (pre ++ .cons f v post))))
      = (decodePtrStruct g env name post).map (fun post1 =>
          some (.ptr (.struct pkg name (pre1 ++ .cons f x post1)))) := by
  obtain ⟨ht, hz⟩ := descend_preserves g env v v1 none hdesc
  have hnv : newValueOf g env f v1 = s := by rw [newValueOf_congr g env f v v1 hz, hs]
  rw [Load_ptr_struct, decodePtrStruct_at_field g env name pre pre1 post f v v1 hpre hdesc,
    decodeField_of_ne g env name f v1 (by rw [hnv]; exact hs0), hnv]
  subst hk
  simp [assignField, hk0, hreg, hfn, ht, hty, GoValue.Set]
  cases decodePtrStruct g env name post <;> simp [Result.map]

/-- C5, the last run of `TestRequired`: with PERSON_NAME=Tom, PERSON_AGE=17
and the converter `toAge` registered, `Load(&Person{})` succeeds with
Age == 17. -/
theorem C5_converted_value_is_assigned_witness :
    Load (Converter "toAge" (some toAge) Globals.initial)
        (Setenv "PERSON_AGE" "17" (Setenv "PERSON_NAME" "Tom" emptyEnv)) (some newPerson)
      = .returned none (some (.ptr (Person "Tom" 17 nilString nilCar))) :=
  C5_converted_value_is_assigned (Converter "toAge" (some toAge) Globals.initial)
    (Setenv "PERSON_AGE" "17" (Setenv "PERSON_NAME" "Tom" emptyEnv)) "envvar" "Person"
    (.cons ⟨"Name", tagPersonName⟩ (.string "") .nil)
    (.cons ⟨"Name", tagPersonName⟩ (.string "Tom") .nil)
    (.cons ⟨"Desc", tagPersonDesc⟩ nilString (.cons ⟨"Car", []⟩ nilCar .nil))
    ⟨"Age", tagPersonAge⟩ (.int 0) (.int 0) (.int 17) "toAge" "17" toAge
    rfl rfl rfl (by decide) rfl rfl (by decide) rfl rfl

/-- C6: an int field whose converter tag names a registered converter that
returns a string and no error makes every `Load` that resolves a new value
for it fail with "<RecordName>.<FieldName> - incorrect converter"; the field
is not assigned. -/
theorem C6_converter_type_mismatch (g : Globals) (env : Env) (pkg name : String)
    (pre pre1 post : Fields) (f : StructField) (n : Int) (k s x : String)
    (fn : ConverterFunc)
    (hpre : decodePtrStruct g env name pre = .returned none pre1)
    (hk : f.Tag.Get g.TagConverter = k)
    (hk0 : k ≠ "")
    (hreg : lookupConverter g.convFunctions k = some (some fn))
    (hs : newValueOf g env f (.int n) = s)
    (hs0 : s ≠ "")
    (hfn : fn s = (some (.string x), none)) :
    Load g env (some (.ptr (.struct pkg name (pre ++ .cons f (.int n) post))))
      = .returned (some (name ++ "." ++ f.Name ++ " - incorrect converter"))
          (some (.ptr (.struct pkg name (pre1 ++ .cons f (.int n) post)))) := by
  have hdesc : descend g env (.int n) = .returned none (.int n) := by simp [descend]
  rw [Load_ptr_struct, decodePtrStruct_at_field g env name pre pre1 post f _ _ hpre hdesc,
    decodeField_of_ne g env name f _ (by rw [hs]; exact hs0), hs]
  subst hk
  have hne : ("int" : String) ≠ "string" := by decide
  simp [assignField, hk0, hreg, hfn, GoValue.TypeOf, GoType.TypeString, hne, Result.map,
    getFieldName]

/-- C6, the third run of `TestRequired`: `toAge` registered as the identity on
strings, PERSON_AGE=ten: `Load(&Person{})` fails and Age is not assigned. -/
theorem C6_converter_type_mismatch_witness :
    Load (Converter "toAge" (some toAgeIdentity) Globals.initial)
        (Setenv "PERSON_AGE" "ten" (Setenv "PERSON_NAME" "Tom" emptyEnv)) (some newPerson)
      = .returned (some "Person.Age - incorrect converter")
          (some (.ptr (Person "Tom" 0 nilString nilCar))) :=
  C6_converter_type_mismatch (Converter "toAge" (some toAgeIdentity) Globals.initial)
    (Setenv "PERSON_AGE" "ten" (Setenv "PERSON_NAME" "Tom" emptyEnv)) "envvar" "Person"
    (.cons ⟨"Name", tagPersonName⟩ (.string "") .nil)
    (.cons ⟨"Name", tagPersonName⟩ (.string "Tom") .nil)
    (.cons ⟨"Desc", tagPersonDesc⟩ nilString (.cons ⟨"Car", []⟩ nilCar .nil))
    ⟨"Age", tagPersonAge⟩ 0 "toAge" "ten" "ten" toAgeIdentity
    rfl rfl (by decide) rfl rfl (by decide) rfl

/-- C7: a field with a registered converter `fn` and a resolved new value
`s` such that `fn s` returns an error with message `m` makes `Load` fail with
"<RecordName>.<FieldName> - m"; the field is left unassigned (the fields
before it and its nested descent having raised no error). -/
theorem C7_converter_error_is_wrapped (g : Globals) (env : Env) (pkg name : String)
    (pre pre1 post : Fields) (f : StructField) (v v1 : GoValue) (k s m : String)
    (fn : ConverterFunc) (any : Option GoValue)
    (hpre : decodePtrStruct g env name pre = .returned none pre1)
    (hdesc : descend g env v = .returned none v1)
    (hk : f.Tag.Get g.TagConverter = k)
    (hk0 : k ≠ "")
    (hreg : lookupConverter g.convFunctions k = some (some fn))
    (hs : newValueOf g env f v = s)
    (hs0 : s ≠ "")
    (hfn : fn s = (any, some m)) :
    Load g env (some (.ptr (.struct pkg name (pre ++ .cons f v post))))
      = .returned (some (name ++ "." ++ f.Name ++ " - " ++ m))
          (some (.ptr (.struct pkg name (pre1 ++ .cons f v1 post)))) := by
  obtain ⟨_, hz⟩ := descend_preserves g env v v1 none hdesc
  have hnv : newValueOf g env f v1 = s := by rw [newValueOf_congr g env f v v1 hz, hs]
  rw [Load_ptr_struct, decodePtrStruct_at_field g env name pre pre1 post f v v1 hpre hdesc,
    decodeField_of_ne g env name f v1 (by rw [hnv]; exact hs0), hnv]
  subst hk
  simp [assignField, hk0, hreg, hfn, Result.map, getFieldName]

/-- C7, the fifth run of `TestRequired`: PERSON_AGE=7 and the converter
`toAge`, which wants at least 10: the error carries "age must be larger than
10" and Age is left at 0. -/
theorem C7_converter_error_is_wrapped_witness :
    Load (Converter "toAge" (some toAge) Globals.initial)
        (Setenv "PERSON_AGE" "7" (Setenv "PERSON_NAME" "Tom" emptyEnv)) (some newPerson)
      = .returned (some "Person.Age - age must be larger than 10")
          (some (.ptr (Person "Tom" 0 nilString nilCar))) :=
  C7_converter_error_is_wrapped (Converter "toAge" (some toAge) Globals.initial)
    (Setenv "PERSON_AGE" "7" (Setenv "PERSON_NAME" "Tom" emptyEnv)) "envvar" "Person"
    (.cons ⟨"Name", tagPersonName⟩ (.string "") .nil)
    (.cons ⟨"Name", tagPersonName⟩ (.string "Tom") .nil)
    (.cons ⟨"Desc", tagPersonDesc⟩ nilString (.cons ⟨"Car", []⟩ nilCar .nil))
    ⟨"Age", tagPersonAge⟩ (.int 0) (.int 0) "toAge" "7" "age must be larger than 10" toAge
    (some (.int 0)) rfl rfl rfl (by decide) rfl rfl (by decide) rfl

/-- C8: a field whose converter tag is a key `X` with no entry in the
registry, and for which a non-empty new value is resolved, makes `Load` fail
with "<RecordName>.<FieldName> - converter X does not exist"; the field is
left unassigned. After `ClearConverters` no key has an entry. -/
theorem C8_converter_not_registered (g : Globals) (env : Env) (pkg name : String)
    (pre pre1 post : Fields) (f : StructField) (v v1 : GoValue) (X s : String)
    (hpre : decodePtrStruct g env name pre = .returned none pre1)
    (hdesc : descend g env v = .returned none v1)
    (hk : f.Tag.Get g.TagConverter = X)
    (hk0 : X ≠ "")
    (hreg : lookupConverter g.convFunctions X = none)
    (hs : newValueOf g env f v = s)
    (hs0 : s ≠ "") :
    Load g env (some (.ptr (.struct pkg name (pre ++ .cons f v post))))
        = .returned (some (name ++ "." ++ f.Name ++ " - converter " ++ X ++ " does not exist"))
            (some (.ptr (.struct pkg name (pre1 ++ .cons f v1 post))))
      ∧ ∀ (g0 : Globals) (key : String),
          lookupConverter (ClearConverters g0).convFunctions key = none := by
  obtain ⟨_, hz⟩ := descend_preserves g env v v1 none hdesc
  have hnv : newValueOf g env f v1 = s := by rw [newValueOf_congr g env f v v1 hz, hs]
  refine ⟨?_, fun g0 key => rfl⟩
  rw [Load_ptr_struct, decodePtrStruct_at_field g env name pre pre1 post f v v1 hpre hdesc,
    decodeField_of_ne g env name f v1 (by rw [hnv]; exact hs0), hnv]
  subst hk
  simp [assignField, hk0, hreg, Result.map, getFieldName]

/-- C8 after `ClearConverters`: with `toAge` registered and then cleared,
PERSON_AGE=17 makes `Load(&Person{})` fail at Age, which stays 0. -/
theorem C8_converter_not_registered_witness :
    Load (ClearConverters (Converter "toAge" (some toAge) Globals.initial))
        (Setenv "PERSON_AGE" "17" (Setenv "PERSON_NAME" "Tom" emptyEnv)) (some newPerson)
      = .returned (some "Person.Age - converter toAge does not exist")
          (some (.ptr (Person "Tom" 0 nilString nilCar))) :=
  (C8_converter_not_registered (ClearConverters (Converter "toAge" (some toAge) Globals.initial))
    (Setenv "PERSON_AGE" "17" (Setenv "PERSON_NAME" "Tom" emptyEnv)) "envvar" "Person"
    (.cons ⟨"Name", tagPersonName⟩ (.string "") .nil)
    (.cons ⟨"Name", tagPersonName⟩ (.string "Tom") .nil)
    (.cons ⟨"Desc", tagPersonDesc⟩ nilString (.cons ⟨"Car", []⟩ nilCar .nil))
    ⟨"Age", tagPersonAge⟩ (.int 0) (.int 0) "toAge" "17"
    rfl rfl rfl (by decide) rfl rfl (by decide)).1

/-- C9: for a field without converter tag whose type is printed neither
"string" nor "*string" (the fields before it and its nested descent having
raised no error): if a non-empty new value is resolved, `Load` fails with
"<RecordName>.<FieldName> - must define converter function for non string or
*string field" and the field is not assigned; and the field's own tags give
that error if and only if a non-empty new value is resolved. -/
theorem C9_missing_converter (g : Globals) (env : Env) (pkg name : String)
    (pre pre1 post : Fields) (f : StructField) (v v1 : GoValue)
    (hpre : decodePtrStruct g env name pre = .returned none pre1)
    (hdesc : descend g env v = .returned none v1)
    (hconv : f.Tag.Get g.TagConverter = "")
    (hstr : v.TypeOf.TypeString ≠ "string")
    (hptr : v.TypeOf.TypeString ≠ "*string") :
    (newValueOf g env f v ≠ "" →
        Load g env (some (.ptr (.struct pkg name (pre ++ .cons f v post))))
          = .returned (some (name ++ "." ++ f.Name
              ++ " - must define converter function for non string or *string field"))
              (some (.ptr (.struct pkg name (pre1 ++ .cons f v1 post)))))
      ∧ ((decodeField g env name f v1).error? = some (name ++ "." ++ f.Name
              ++ " - must define converter function for non string or *string field")
          ↔ newValueOf g env f v ≠ "") := by
  obtain ⟨ht, hz⟩ := descend_preserves g env v v1 none hdesc
  have hnv : newValueOf g env f v1 = newValueOf g env f v := newValueOf_congr g env f v v1 hz
  have hassign : ∀ s, assignField g name f v1 s = .returned (some (name ++ "." ++ f.Name
      ++ " - must define converter function for non string or *string field")) v1 := by
    intro s
    simp [assignField, hconv, ht, hstr, hptr, getFieldName]
  refine ⟨?_, ?_, ?_⟩
  · intro hne
    rw [Load_ptr_struct, decodePtrStruct_at_field g env name pre pre1 post f v v1 hpre hdesc,
      decodeField_of_ne g env name f v1 (by rw [hnv]; exact hne), hassign]
    simp [Result.map]
  · intro herr
    intro hempty
    rw [decodeField_of_empty g env name f v1 (by rw [hnv]; exact hempty)] at herr
    split at herr
    · simp only [Result.error?, getFieldName, Option.some.injEq] at herr
      have h2 := append_left_cancel_string _ _ _ herr
      revert h2
      decide
    · simp [Result.error?] at herr
  · intro hne
    rw [decodeField_of_ne g env name f v1 (by rw [hnv]; exact hne), hassign]
    rfl

/-- C9 on a record `Server` with an int field `Port` tagged env:"PORT" and no
converter: with PORT=80 `Load` fails, the port stays 0. -/
theorem C9_missing_converter_witness :
    Load Globals.initial (Setenv "PORT" "80" emptyEnv)
        (some (.ptr (.struct "envvar" "Server" (.cons ⟨"Port", [("env", "PORT")]⟩ (.int 0) .nil))))
      = .returned
          (some "Server.Port - must define converter function for non string or *string field")
          (some (.ptr (.struct "envvar" "Server"
            (.cons ⟨"Port", [("env", "PORT")]⟩ (.int 0) .nil)))) :=
  (C9_missing_converter Globals.initial (Setenv "PORT" "80" emptyEnv) "envvar" "Server"
    .nil .nil .nil ⟨"Port", [("env", "PORT")]⟩ (.int 0) (.int 0) rfl rfl rfl
    (by decide) (by decide)).1 (by decide)

/-- C10: a field for which no new value is resolved (no env tag or the
variable unset or empty, and no default or a non-zero value) and which does
not fail the required check is skipped: `Load` goes on with the remaining
fields and the field holds what it held (`v1`, which is `v` itself unless the
field is a non-nil pointer to a record, whose target has been decoded). The
field's own tags give no error whatever the registry holds, hence also when
the converter tag names an unregistered converter. -/
theorem C10_no_new_value_is_a_no_op (g : Globals) (env : Env) (pkg name : String)
    (pre pre1 post : Fields) (f : StructField) (v v1 : GoValue)
    (hpre : decodePtrStruct g env name pre = .returned none pre1)
    (hdesc : descend g env v = .returned none v1)
    (henv : f.Tag.Get g.TagEnvVar = "" ∨ Getenv env (f.Tag.Get g.TagEnvVar) = "")
    (hdef : f.Tag.Get g.TagDefault = "" ∨ v.IsZero = false)
    (hreq : ¬ (ToLower (f.Tag.Get g.TagRequired) = "true" ∧ v.IsZero = true)) :
    Load g env (some (.ptr (.struct pkg name (pre ++ .cons f v post))))
        = (decodePtrStruct g env name post).map (fun post1 =>
            some (.ptr (.struct pkg name (pre1 ++ .cons f v1 post1))))
      ∧ ((∀ p n fs, v ≠ .ptr (.struct p n fs)) → v1 = v)
      ∧ ∀ (registry : Option ConverterMap),
          decodeField ⟨g.TagEnvVar, g.TagDefault, g.TagRequired, g.TagConverter, registry⟩
            env name f v1 = .returned none v1 := by
  obtain ⟨_, hz⟩ := descend_preserves g env v v1 none hdesc
  have hnv : newValueOf g env f v1 = "" :=
    newValueOf_none g env f v1 (by rw [hz]; exact hdef) henv
  refine ⟨?_, ?_, ?_⟩
  · rw [Load_ptr_struct, decodePtrStruct_at_field g env name pre pre1 post f v v1 hpre hdesc,
      decodeField_of_empty g env name f v1 hnv]
    rw [hz, if_neg hreq]
    cases decodePtrStruct g env name post <;> simp [Result.map]
  · intro hnot
    rw [descend_of_not_ptr_struct g env v hnot] at hdesc
    simp only [Result.returned.injEq, true_and] at hdesc
    exact hdesc.symm
  · intro registry
    have hnv2 : newValueOf ⟨g.TagEnvVar, g.TagDefault, g.TagRequired, g.TagConverter, registry⟩
        env f v1 = "" := hnv
    rw [decodeField_of_empty _ env name f v1 hnv2]
    rw [hz]
    exact if_neg hreq

/-- C10, the last run of `TestRequired`: PERSON_DESC is unset, `Person.Desc`
is nil before `Load` and nil after it. And with no converter registered at
all, a `Person` that already holds the age 17 loads without error when
PERSON_AGE is unset, although the converter tag of Age names `toAge`. -/
theorem C10_no_new_value_is_a_no_op_witness :
    Load (Converter "toAge" (some toAge) Globals.initial)
        (Setenv "PERSON_AGE" "17" (Setenv "PERSON_NAME" "Tom" emptyEnv)) (some newPerson)
        = .returned none (some (.ptr (Person "Tom" 17 nilString nilCar)))
      ∧ Load Globals.initial (Setenv "PERSON_NAME" "Tom" emptyEnv)
          (some (.ptr (Person "" 17 nilString nilCar)))
        = .returned none (some (.ptr (Person "Tom" 17 nilString nilCar))) :=
  ⟨(C10_no_new_value_is_a_no_op (Converter "toAge" (some toAge) Globals.initial)
      (Setenv "PERSON_AGE" "17" (Setenv "PERSON_NAME" "Tom" emptyEnv)) "envvar" "Person"
      (.cons ⟨"Name", tagPersonName⟩ (.string "") (.cons ⟨"Age", tagPersonAge⟩ (.int 0) .nil))
      (.cons ⟨"Name", tagPersonName⟩ (.string "Tom")
        (.cons ⟨"Age", tagPersonAge⟩ (.int 17) .nil))
      (.cons ⟨"Car", []⟩ nilCar .nil)
      ⟨"Desc", tagPersonDesc⟩ nilString nilString rfl rfl (Or.inr rfl) (Or.inl rfl)
      (by decide)).1,
   (C10_no_new_value_is_a_no_op Globals.initial (Setenv "PERSON_NAME" "Tom" emptyEnv)
      "envvar" "Person"
      (.cons ⟨"Name", tagPersonName⟩ (.string "") .nil)
      (.cons ⟨"Name", tagPersonName⟩ (.string "Tom") .nil)
      (.cons ⟨"Desc", tagPersonDesc⟩ nilString (.cons ⟨"Car", []⟩ nilCar .nil))
      ⟨"Age", tagPersonAge⟩ (.int 17) (.int 17) rfl rfl (Or.inr rfl) (Or.inr rfl)
      (by decide)).1⟩

/-! ## Auxiliary facts on the recursive walk -/

/-- Induction along the walk of `decodePtrStruct`: a property of field
sequences holds of all of them if it holds of the empty one and passes to
`cons field val rest` from `rest` and from the fields of the record behind
`val`, when `val` is a non-nil pointer to a record. -/
theorem Fields.walk_induction (P : Fields → Prop) (hnil : P .nil)
    (hcons : ∀ (field : StructField) (val : GoValue) (rest : Fields),
      (∀ pkg name fields, val = .ptr (.struct pkg name fields) → P fields) → P rest →
        P (.cons field val rest)) :
    ∀ fields, P fields := by
  intro fields
  refine @Fields.rec
    (fun v => (∀ pkg name fs, v = .struct pkg name fs → P fs)
      ∧ (∀ pkg name fs, v = .ptr (.struct pkg name fs) → P fs))
    P ?_ ?_ ?_ ?_ ?_ ?_ ?_ ?_ hnil ?_ fields
  · intro b
    exact ⟨fun _ _ _ h => (by cases h), fun _ _ _ h => (by cases h)⟩
  · intro n
    exact ⟨fun _ _ _ h => (by cases h), fun _ _ _ h => (by cases h)⟩
  · intro bits
    exact ⟨fun _ _ _ h => (by cases h), fun _ _ _ h => (by cases h)⟩
  · intro str
    exact ⟨fun _ _ _ h => (by cases h), fun _ _ _ h => (by cases h)⟩
  · intro pkg name fs ih
    refine ⟨fun _ _ _ h => ?_, fun _ _ _ h => (by cases h)⟩
    cases h
    exact ih
  · intro elem
    exact ⟨fun _ _ _ h => (by cases h), fun _ _ _ h => (by cases h)⟩
  · intro target ih
    refine ⟨fun _ _ _ h => (by cases h), fun pkg name fs h => ?_⟩
    cases h
    exact ih.1 pkg name fs rfl
  · intro typ payload
    exact ⟨fun _ _ _ h => (by cases h), fun _ _ _ h => (by cases h)⟩
  · intro field val rest ihv ihr
    exact hcons field val rest ihv.2 ihr

/-- The new value depends on the environment only through `os.Getenv`. -/
theorem newValueOf_env_congr (g : Globals) (env1 env2 : Env) (f : StructField) (v : GoValue)
    (h : ∀ key, Getenv env1 key = Getenv env2 key) :
    newValueOf g env1 f v = newValueOf g env2 f v := by
  simp only [newValueOf, h]

/-- The tags of a field are processed alike under two environments that
`os.Getenv` does not tell apart. -/
theorem decodeField_env_congr (g : Globals) (env1 env2 : Env) (structName : String)
    (f : StructField) (v : GoValue) (h : ∀ key, Getenv env1 key = Getenv env2 key) :
    decodeField g env1 structName f v = decodeField g env2 structName f v := by
  simp only [decodeField, newValueOf_env_congr g env1 env2 f v h]

/-- The whole walk is alike under two environments that `os.Getenv` does not
tell apart. -/
theorem decodePtrStruct_env_congr (g : Globals) (env1 env2 : Env)
    (h : ∀ key, Getenv env1 key = Getenv env2 key) :
    ∀ (fields : Fields) (structName : String),
      decodePtrStruct g env1 structName fields = decodePtrStruct g env2 structName fields := by
  refine Fields.walk_induction _ ?_ ?_
  · intro structName
    simp [decodePtrStruct]
  · intro field val rest ihv ihr structName
    have hd : descend g env1 val = descend g env2 val := by
      cases val with
      | ptr target =>
        cases target with
        | struct pkg name fs => simp only [descend, ihv pkg name fs rfl name]
        | _ => simp [descend]
      | _ => simp [descend]
    simp only [decodePtrStruct, hd, ihr structName]
    cases descend g env2 val with
    | panicked reason => rfl
    | returned err v1 =>
      cases err with
      | some e => rfl
      | none => simp only [decodeField_env_congr g env1 env2 structName field v1 h]

/-- A field without env, default and required tag that is a pointer to a
record is skipped by its own tags. -/
theorem decodeField_untagged (g : Globals) (env : Env) (structName : String) (f : StructField)
    (v : GoValue)
    (hvar : f.Tag.Get g.TagEnvVar = "")
    (hdef : f.Tag.Get g.TagDefault = "")
    (hreq : f.Tag.Get g.TagRequired = "") :
    decodeField g env structName f v = .returned none v := by
  have hnv : newValueOf g env f v = "" := newValueOf_none g env f v (Or.inl hdef) (Or.inl hvar)
  rw [decodeField_of_empty g env structName f v hnv, hreq]
  have h : ¬ (ToLower "" = "true") := by decide
  simp [h]

/-! ## The claims, continued -/

/-- C11: a field that is a nil pointer to a nested record and carries no env,
default or required tag is left nil by `Load`, which goes on with the
remaining fields; nothing of the nested record type is looked at (the nil
pointer only carries the name of its type), so no tag of that type can make
`Load` fail. -/
theorem C11_nil_nested_pointer_is_skipped (g : Globals) (env : Env) (pkg name : String)
    (pre pre1 post : Fields) (f : StructField) (nestedPkg nestedName : String)
    (hpre : decodePtrStruct g env name pre = .returned none pre1)
    (hvar : f.Tag.Get g.TagEnvVar = "")
    (hdef : f.Tag.Get g.TagDefault = "")
    (hreq : f.Tag.Get g.TagRequired = "") :
    Load g env (some (.ptr (.struct pkg name
        (pre ++ .cons f (.nilPtr (.struct nestedPkg nestedName)) post))))
      = (decodePtrStruct g env name post).map (fun post1 =>
          some (.ptr (.struct pkg name
            (pre1 ++ .cons f (.nilPtr (.struct nestedPkg nestedName)) post1)))) := by
  rw [Load_ptr_struct,
    decodePtrStruct_at_field g env name pre pre1 post f _ _ hpre
      (descend_of_isZero g env (.nilPtr (.struct nestedPkg nestedName)) rfl),
    decodeField_untagged g env name f _ hvar hdef hreq]
  cases decodePtrStruct g env name post <;> simp [Result.map]

/-- C11, the last run of `TestRequired`: `Person.Car` is nil, `Car.Engine` is
required and CAR_ENGINE is unset, and `Load(&Person{})` succeeds with Car
still nil. -/
theorem C11_nil_nested_pointer_is_skipped_witness :
    Load (registerConverts Globals.initial)
        (Setenv "PERSON_AGE" "17" (Setenv "PERSON_NAME" "Tom" emptyEnv)) (some newPerson)
      = .returned none (some (.ptr (Person "Tom" 17 nilString nilCar))) :=
  C11_nil_nested_pointer_is_skipped (registerConverts Globals.initial)
    (Setenv "PERSON_AGE" "17" (Setenv "PERSON_NAME" "Tom" emptyEnv)) "envvar" "Person"
    (.cons ⟨"Name", tagPersonName⟩ (.string "")
      (.cons ⟨"Age", tagPersonAge⟩ (.int 0) (.cons ⟨"Desc", tagPersonDesc⟩ nilString .nil)))
    (.cons ⟨"Name", tagPersonName⟩ (.string "Tom")
      (.cons ⟨"Age", tagPersonAge⟩ (.int 17) (.cons ⟨"Desc", tagPersonDesc⟩ nilString .nil)))
    .nil ⟨"Car", []⟩ "envvar" "Car" rfl rfl rfl rfl

/-- C12: for a field holding a non-nil pointer to a nested record and
carrying no env, default or required tag, after fields decoded without
error: `Load` on the outer record does to the nested record what `Load`
called on the pointer itself does. If that call fails with `e`, the outer
`Load` fails with `e`, the later outer fields untouched; if it panics, so
does the outer `Load`; if it succeeds, the outer `Load` goes on with the
remaining fields. In every case the nested record ends as the direct call
leaves it. -/
theorem C12_nested_record_is_loaded_alike (g : Globals) (env : Env) (pkg name : String)
    (pre pre1 post : Fields) (f : StructField) (nestedPkg nestedName : String)
    (nested : Fields)
    (hpre : decodePtrStruct g env name pre = .returned none pre1)
    (hvar : f.Tag.Get g.TagEnvVar = "")
    (hdef : f.Tag.Get g.TagDefault = "")
    (hreq : f.Tag.Get g.TagRequired = "") :
    Load g env (some (.ptr (.struct pkg name
        (pre ++ .cons f (.ptr (.struct nestedPkg nestedName nested)) post))))
      = match Load g env (some (.ptr (.struct nestedPkg nestedName nested))) with
        | .panicked reason => .panicked reason
        | .returned (some e) st =>
          .returned (some e) (some (.ptr (.struct pkg name
            (pre1 ++ .cons f (st.getD (.ptr (.struct nestedPkg nestedName nested))) post))))
        | .returned none st =>
          (decodePtrStruct g env name post).map (fun post1 =>
            some (.ptr (.struct pkg name
              (pre1 ++ .cons f (st.getD (.ptr (.struct nestedPkg nestedName nested))) post1)))) := by
  rw [Load_ptr_struct, Load_ptr_struct,
    decodePtrStruct_append g env name _ pre pre1 hpre]
  simp only [decodePtrStruct, descend]
  cases hn : decodePtrStruct g env nestedName nested with
  | panicked reason => simp [Result.map]
  | returned err nested1 =>
    cases err with
    | some e => simp [Result.map]
    | none =>
      simp only [Result.map, Option.getD_some,
        decodeField_untagged g env name f _ hvar hdef hreq]
      cases decodePtrStruct g env name post <;> simp [Result.map]

/-- C12, the run of `TestNested`: `Load` on `&Person{Car: &Car{}}` leaves the
car with Brand "Toyota", Engine 2.0, Model "Camry" and Desc "nothing to say",
which is how `Load` on the `&Car{}` itself leaves it. -/
theorem C12_nested_record_is_loaded_alike_witness :
    Load (registerConverts Globals.initial) nestedEnv (some newCar)
        = .returned none (some (.ptr
            (Car "Toyota" 4611686018427387904 "Camry" (ptr "nothing to say"))))
      ∧ Load (registerConverts Globals.initial) nestedEnv
          (some (.ptr (Person "" 0 nilString newCar)))
        = .returned none (some (.ptr (Person "Tom" 17 (ptr "Nice person")
            (.ptr (Car "Toyota" 4611686018427387904 "Camry" (ptr "nothing to say")))))) :=
  ⟨rfl,
   C12_nested_record_is_loaded_alike (registerConverts Globals.initial) nestedEnv
    "envvar" "Person"
    (.cons ⟨"Name", tagPersonName⟩ (.string "")
      (.cons ⟨"Age", tagPersonAge⟩ (.int 0) (.cons ⟨"Desc", tagPersonDesc⟩ nilString .nil)))
    (.cons ⟨"Name", tagPersonName⟩ (.string "Tom")
      (.cons ⟨"Age", tagPersonAge⟩ (.int 17)
        (.cons ⟨"Desc", tagPersonDesc⟩ (ptr "Nice person") .nil)))
    .nil ⟨"Car", []⟩ "envvar" "Car"
    (.cons ⟨"Brand", tagCarBrand⟩ (.string "")
      (.cons ⟨"Engine", tagCarEngine⟩ (.float64 0)
        (.cons ⟨"Model", tagCarModel⟩ (.string "")
          (.cons ⟨"Desc", tagCarDesc⟩ nilString .nil))))
    rfl rfl rfl rfl⟩

/-- What a successful turn of the loop consists of. -/
theorem decodePtrStruct_cons_success (g : Globals) (env : Env) (structName : String)
    (f : StructField) (v : GoValue) (rest fields1 : Fields)
    (h : decodePtrStruct g env structName (.cons f v rest) = .returned none fields1) :
    ∃ v1 v2 rest1, descend g env v = .returned none v1
      ∧ decodeField g env structName f v1 = .returned none v2
      ∧ decodePtrStruct g env structName rest = .returned none rest1
      ∧ fields1 = .cons f v2 rest1 := by
  simp only [decodePtrStruct] at h
  cases hd : descend g env v with
  | panicked reason => simp [hd] at h
  | returned err v1 =>
    cases err with
    | some e => simp [hd] at h
    | none =>
      simp only [hd] at h
      cases hf : decodeField g env structName f v1 with
      | panicked reason => simp [hf] at h
      | returned err v2 =>
        cases err with
        | some e => simp [hf] at h
        | none =>
          simp only [hf] at h
          cases hx : decodePtrStruct g env structName rest with
          | panicked reason => simp [hx] at h
          | returned err rest1 =>
            simp only [hx, Result.returned.injEq] at h
            obtain ⟨rfl, rfl⟩ := h
            exact ⟨v1, v2, rest1, rfl, hf, rfl, rfl⟩

/-- A successful turn of the loop followed by a successful rest. -/
theorem decodePtrStruct_cons_of_success (g : Globals) (env : Env) (structName : String)
    (f : StructField) (v v1 v2 : GoValue) (rest rest1 : Fields)
    (hd : descend g env v = .returned none v1)
    (hf : decodeField g env structName f v1 = .returned none v2)
    (hr : decodePtrStruct g env structName rest = .returned none rest1) :
    decodePtrStruct g env structName (.cons f v rest) = .returned none (.cons f v2 rest1) := by
  simp only [decodePtrStruct, hd, hf, hr]

/-- A successful conversion or assignment gives a value of the field's type,
and gives the same value on every field of that type. The value is a pointer
to a record only if a converter returned it. -/
theorem assignField_success (g : Globals) (structName : String) (f : StructField)
    (v1 v2 : GoValue) (s : String)
    (hconv : ∀ k fn arg x, lookupConverter g.convFunctions k = some (some fn) →
      fn arg = (some x, none) → ∀ pkg name fields, x ≠ .ptr (.struct pkg name fields))
    (h : assignField g structName f v1 s = .returned none v2) :
    v2.TypeOf = v1.TypeOf ∧ (∀ pkg name fields, v2 ≠ .ptr (.struct pkg name fields))
      ∧ ∀ v, v.TypeOf = v1.TypeOf → assignField g structName f v s = .returned none v2 := by
  simp only [assignField] at h
  by_cases hc : f.Tag.Get g.TagConverter = ""
  · simp only [hc, ne_eq, not_true_eq_false, if_false] at h
    by_cases hs : v1.TypeOf.TypeString = "string"
    · simp only [hs, if_true] at h
      cases v1 <;> simp [GoValue.SetString] at h
      subst h
      refine ⟨rfl, fun _ _ _ hx => (by cases hx), ?_⟩
      intro v hv
      cases v <;> simp only [GoValue.TypeOf] at hv <;> try cases hv
      simp [assignField, hc, GoValue.TypeOf, GoType.TypeString, GoValue.SetString]
    · simp only [hs, if_false] at h
      by_cases hp : v1.TypeOf.TypeString = "*string"
      · simp only [hp, if_true, GoValue.Set] at h
        by_cases ht : (ptr s).TypeOf = v1.TypeOf
        · simp only [ht, if_true, Result.returned.injEq, true_and] at h
          subst h
          refine ⟨ht, fun _ _ _ hx => (by cases hx), ?_⟩
          intro v hv
          simp [assignField, hc, hv, hs, hp, GoValue.Set, ht]
        · simp [ht] at h
      · simp [hp] at h
  · simp only [hc, ne_eq, not_false_eq_true, if_true] at h
    cases hl : lookupConverter g.convFunctions (f.Tag.Get g.TagConverter) with
    | none => simp [hl] at h
    | some entry =>
      cases entry with
      | none => simp [hl] at h
      | some fn =>
        simp only [hl] at h
        rcases hfn : fn s with ⟨a, e⟩
        cases e with
        | some m => simp [hfn] at h
        | none =>
          cases a with
          | none => simp [hfn] at h
          | some x =>
            simp only [hfn] at h
            by_cases hts : v1.TypeOf.TypeString = x.TypeOf.TypeString
            · simp only [hts, ne_eq, not_true_eq_false, if_false, GoValue.Set] at h
              by_cases ht : x.TypeOf = v1.TypeOf
              · simp only [ht, if_true, Result.returned.injEq, true_and] at h
                subst h
                refine ⟨ht, hconv _ fn s x hl hfn, ?_⟩
                intro v hv
                simp [assignField, hc, hl, hfn, hv, hts, GoValue.Set, ht]
              · simp [ht] at h
            · simp [hts] at h

/-- The new value on a second look at a field for which one was resolved: the
same again, or none because the field is no longer zero. -/
theorem newValueOf_again (g : Globals) (env : Env) (f : StructField) (v1 v2 : GoValue)
    (h : newValueOf g env f v1 ≠ "") :
    newValueOf g env f v2 = newValueOf g env f v1
      ∨ (newValueOf g env f v2 = "" ∧ v2.IsZero = false) := by
  simp only [newValueOf] at h ⊢
  by_cases hv : f.Tag.Get g.TagEnvVar ≠ "" ∧ Getenv env (f.Tag.Get g.TagEnvVar) ≠ ""
  · left
    simp [hv.1, hv.2]
  · have hfrom : ∀ v : GoValue,
        (if f.Tag.Get g.TagEnvVar ≠ "" then
          if Getenv env (f.Tag.Get g.TagEnvVar) ≠ "" then Getenv env (f.Tag.Get g.TagEnvVar)
          else if f.Tag.Get g.TagDefault ≠ "" ∧ v.IsZero = true
            then f.Tag.Get g.TagDefault else ""
        else if f.Tag.Get g.TagDefault ≠ "" ∧ v.IsZero = true
          then f.Tag.Get g.TagDefault else "")
        = if f.Tag.Get g.TagDefault ≠ "" ∧ v.IsZero = true
          then f.Tag.Get g.TagDefault else "" := by
      intro v
      by_cases h1 : f.Tag.Get g.TagEnvVar = ""
      · simp [h1]
      · have h2 : Getenv env (f.Tag.Get g.TagEnvVar) = "" :=
          Classical.byContradiction (fun h2 => hv ⟨h1, h2⟩)
        simp [h1, h2]
    rw [hfrom v1] at h
    rw [hfrom v1, hfrom v2]
    by_cases hd : f.Tag.Get g.TagDefault ≠ "" ∧ v1.IsZero = true
    · cases hz : v2.IsZero with
      | true => left; simp [hd.1, hd.2]
      | false => right; simp
    · simp [hd] at h

/-- The tags of a field processed a second time, after a success, succeed
and leave the field as it is. The value is the one before, or one that is
not a pointer to a record. -/
theorem decodeField_again (g : Globals) (env : Env) (structName : String) (f : StructField)
    (v1 v2 : GoValue)
    (hconv : ∀ k fn arg x, lookupConverter g.convFunctions k = some (some fn) →
      fn arg = (some x, none) → ∀ pkg name fields, x ≠ .ptr (.struct pkg name fields))
    (h : decodeField g env structName f v1 = .returned none v2) :
    decodeField g env structName f v2 = .returned none v2
      ∧ (v2 = v1 ∨ ∀ pkg name fields, v2 ≠ .ptr (.struct pkg name fields)) := by
  by_cases hnv : newValueOf g env f v1 = ""
  · have hv : v2 = v1 := by
      rw [decodeField_of_empty g env structName f v1 hnv] at h
      split at h
      · simp at h
      · simp only [Result.returned.injEq, true_and] at h
        exact h.symm
    subst hv
    exact ⟨h, Or.inl rfl⟩
  · rw [decodeField_of_ne g env structName f v1 hnv] at h
    obtain ⟨_, hnot, hsame⟩ := assignField_success g structName f v1 v2 _ hconv h
    refine ⟨?_, Or.inr hnot⟩
    rcases newValueOf_again g env f v1 v2 hnv with h2 | ⟨h2, hz⟩
    · rw [decodeField_of_ne g env structName f v2 (by rw [h2]; exact hnv), h2]
      have hv2 := hsame v2 (assignField_success g structName f v1 v2 _ hconv h).1
      exact hv2
    · rw [decodeField_of_empty g env structName f v2 h2]
      simp [hz]

/-- The walk run a second time, after a success, succeeds and changes
nothing, when no registered converter returns a pointer to a record. -/
theorem decodePtrStruct_again (g : Globals) (env : Env)
    (hconv : ∀ k fn arg x, lookupConverter g.convFunctions k = some (some fn) →
      fn arg = (some x, none) → ∀ pkg name fields, x ≠ .ptr (.struct pkg name fields)) :
    ∀ (fields : Fields) (structName : String) (fields1 : Fields),
      decodePtrStruct g env structName fields = .returned none fields1 →
        decodePtrStruct g env structName fields1 = .returned none fields1 := by
  refine Fields.walk_induction _ ?_ ?_
  · intro structName fields1 h
    simp only [decodePtrStruct, Result.returned.injEq, true_and] at h
    subst h
    simp [decodePtrStruct]
  · intro field val rest ihv ihr structName fields1 h
    obtain ⟨v1, v2, rest1, hd, hf, hr, rfl⟩ :=
      decodePtrStruct_cons_success g env structName field val rest fields1 h
    obtain ⟨hf2, hv2⟩ := decodeField_again g env structName field v1 v2 hconv hf
    have hd1 : descend g env v1 = .returned none v1 := by
      cases val with
      | ptr target =>
        cases target with
        | struct pkg name fs =>
          simp only [descend] at hd
          cases hn : decodePtrStruct g env name fs with
          | panicked reason => simp [hn] at hd
          | returned err fs1 =>
            simp only [hn, Result.returned.injEq] at hd
            obtain ⟨rfl, rfl⟩ := hd
            simp only [descend, ihv pkg name fs rfl name fs1 hn]
        | _ =>
          simp only [descend, Result.returned.injEq, true_and] at hd
          subst hd
          simp [descend]
      | _ =>
        simp only [descend, Result.returned.injEq, true_and] at hd
        subst hd
        simp [descend]
    have hd2 : descend g env v2 = .returned none v2 := by
      rcases hv2 with rfl | hnot
      · exact hd1
      · exact descend_of_not_ptr_struct g env v2 hnot
    exact decodePtrStruct_cons_of_success g env structName field v2 v2 v2 rest1 rest1 hd2 hf2
      (ihr structName rest1 hr)

/-- C13 as stated fails: the record `Owner` has one field `Car` of type
`*Plate` with the tags env:"OWNER_CAR" converter:"toPlate", the record
`Plate` one field `Number` with env:"PLATE_NUMBER" required:"true"; no field
has a default. With OWNER_CAR=yes and a converter `toPlate` that returns
`&Plate{}`, `Load(&Owner{})` succeeds, and the second `Load` on the same
record, which now descends into the plate, fails. -/
theorem C13_counterexample :
    Load (Converter "toPlate" (some (fun _ => (some (.ptr (.struct "envvar" "Plate"
          (.cons ⟨"Number", [("env", "PLATE_NUMBER"), ("required", "true")]⟩ (.string "")
            .nil))), none))) Globals.initial)
        (Setenv "OWNER_CAR" "yes" emptyEnv)
        (some (.ptr (.struct "envvar" "Owner"
          (.cons ⟨"Car", [("env", "OWNER_CAR"), ("converter", "toPlate")]⟩
            (.nilPtr (.struct "envvar" "Plate")) .nil))))
      = .returned none
        (some (.ptr (.struct "envvar" "Owner"
          (.cons ⟨"Car", [("env", "OWNER_CAR"), ("converter", "toPlate")]⟩
            (.ptr (.struct "envvar" "Plate"
              (.cons ⟨"Number", [("env", "PLATE_NUMBER"), ("required", "true")]⟩ (.string "")
                .nil))) .nil))))
    ∧ Load (Converter "toPlate" (some (fun _ => (some (.ptr (.struct "envvar" "Plate"
          (.cons ⟨"Number", [("env", "PLATE_NUMBER"), ("required", "true")]⟩ (.string "")
            .nil))), none))) Globals.initial)
        (Setenv "OWNER_CAR" "yes" emptyEnv)
        (some (.ptr (.struct "envvar" "Owner"
          (.cons ⟨"Car", [("env", "OWNER_CAR"), ("converter", "toPlate")]⟩
            (.ptr (.struct "envvar" "Plate"
              (.cons ⟨"Number", [("env", "PLATE_NUMBER"), ("required", "true")]⟩ (.string "")
                .nil))) .nil))))
      = .returned (some "Plate.Number is required")
        (some (.ptr (.struct "envvar" "Owner"
          (.cons ⟨"Car", [("env", "OWNER_CAR"), ("converter", "toPlate")]⟩
            (.ptr (.struct "envvar" "Plate"
              (.cons ⟨"Number", [("env", "PLATE_NUMBER"), ("required", "true")]⟩ (.string "")
                .nil))) .nil)))) := by
  exact ⟨rfl, rfl⟩

/-- C13 (amended): when no registered converter returns a non-nil pointer to
a record, a second `Load` with the same environment and registry after a
successful `Load` succeeds and leaves every field, those of the nested
records included, as the first call left it; this holds whether or not a
default is applied again. -/
theorem C13_second_Load_changes_nothing (g : Globals) (env : Env) (v st : Option GoValue)
    (hconv : ∀ k fn arg x, lookupConverter g.convFunctions k = some (some fn) →
      fn arg = (some x, none) → ∀ pkg name fields, x ≠ .ptr (.struct pkg name fields))
    (h : Load g env v = .returned none st) :
    Load g env st = .returned none st := by
  cases v with
  | none => simp [Load] at h
  | some x =>
    by_cases hk : x.TypeOf.Kind = .Ptr
    · cases x with
      | ptr target =>
        cases target with
        | struct pkg name fs =>
          rw [Load_ptr_struct] at h
          cases hn : decodePtrStruct g env name fs with
          | panicked reason => simp [hn, Result.map] at h
          | returned err fs1 =>
            simp only [hn, Result.map, Result.returned.injEq] at h
            obtain ⟨rfl, rfl⟩ := h
            rw [Load_ptr_struct, decodePtrStruct_again g env hconv fs name fs1 hn]
            rfl
        | _ => simp [Load, GoValue.TypeOf, GoType.Kind, GoValue.Elem] at h
      | nilPtr elem => simp [Load, GoValue.TypeOf, GoType.Kind, GoValue.Elem] at h
      | _ => simp [GoValue.TypeOf, GoType.Kind] at hk
    · simp [Load, hk] at h

/-- C13, the last run of `TestRequired` twice: `Load(&Person{})` with
PERSON_NAME=Tom and PERSON_AGE=17 gives Tom, 17; `Load` on that record again
gives the same record. -/
theorem C13_second_Load_changes_nothing_witness :
    Load (registerConverts Globals.initial)
        (Setenv "PERSON_AGE" "17" (Setenv "PERSON_NAME" "Tom" emptyEnv))
        (some (.ptr (Person "Tom" 17 nilString nilCar)))
      = .returned none (some (.ptr (Person "Tom" 17 nilString nilCar))) :=
  C13_second_Load_changes_nothing (registerConverts Globals.initial)
    (Setenv "PERSON_AGE" "17" (Setenv "PERSON_NAME" "Tom" emptyEnv))
    (some newPerson) (some (.ptr (Person "Tom" 17 nilString nilCar)))
    (by
      intro k fn arg x hl hfn pkg name fields hx
      subst hx
      simp only [registerConverts, Converter, lookupConverter, Globals.initial] at hl
      split at hl
      · simp only [Option.some.injEq] at hl
        subst hl
        simp only [toFloat] at hfn
        split at hfn <;> simp at hfn
      · split at hl
        · simp only [Option.some.injEq] at hl
          subst hl
          simp only [toAge] at hfn
          split at hfn
          · simp at hfn
          · split at hfn <;> simp at hfn
        · simp at hl)
    rfl

/-- Without converter tag a successful assignment stores the new value
itself, as a string or behind a fresh pointer. -/
theorem assignField_no_converter_success (g : Globals) (structName : String) (f : StructField)
    (v1 v2 : GoValue) (s : String)
    (hc : f.Tag.Get g.TagConverter = "")
    (h : assignField g structName f v1 s = .returned none v2) :
    v2 = .string s ∨ v2 = .ptr (.string s) := by
  simp only [assignField, hc, ne_eq, not_true_eq_false, if_false] at h
  by_cases hs : v1.TypeOf.TypeString = "string"
  · simp only [hs, if_true] at h
    cases v1 <;> simp [GoValue.SetString] at h
    exact Or.inl h.symm
  · simp only [hs, if_false] at h
    by_cases hp : v1.TypeOf.TypeString = "*string"
    · simp only [hp, if_true, GoValue.Set] at h
      by_cases ht : (ptr s).TypeOf = v1.TypeOf
      · simp only [ht, if_true, Result.returned.injEq, true_and] at h
        exact Or.inr h.symm
      · simp [ht] at h
    · simp [hp] at h

/-- With a converter tag a successful assignment stores what the registered
converter returns for the new value. -/
theorem assignField_converter_success (g : Globals) (structName : String) (f : StructField)
    (v1 v2 : GoValue) (s : String)
    (hc : f.Tag.Get g.TagConverter ≠ "")
    (h : assignField g structName f v1 s = .returned none v2) :
    ∃ convFunc : ConverterFunc,
      lookupConverter g.convFunctions (f.Tag.Get g.TagConverter) = some (some convFunc)
        ∧ convFunc s = (some v2, none) := by
  simp only [assignField, hc, ne_eq, not_false_eq_true, if_true] at h
  cases hl : lookupConverter g.convFunctions (f.Tag.Get g.TagConverter) with
  | none => simp [hl] at h
  | some entry =>
    cases entry with
    | none => simp [hl] at h
    | some fn =>
      simp only [hl] at h
      rcases hfn : fn s with ⟨a, e⟩
      cases e with
      | some m => simp [hfn] at h
      | none =>
        cases a with
        | none => simp [hfn] at h
        | some x =>
          simp only [hfn] at h
          by_cases hts : v1.TypeOf.TypeString = x.TypeOf.TypeString
          · simp only [hts, ne_eq, not_true_eq_false, if_false, GoValue.Set] at h
            by_cases ht : x.TypeOf = v1.TypeOf
            · simp only [ht, if_true, Result.returned.injEq, true_and] at h
              subst h
              exact ⟨fn, rfl, hfn⟩
            · simp [ht] at h
          · simp [hts] at h

/-- After a successful turn of the loop a required field is not zero, unless
its converter returned the zero value for a non-empty new value. -/
theorem decodeField_requiredSettled (g : Globals) (env : Env) (structName : String)
    (f : StructField) (v v1 v2 : GoValue)
    (hd : descend g env v = .returned none v1)
    (hf : decodeField g env structName f v1 = .returned none v2) :
    requiredSettled g env f v v2 := by
  intro hreq
  have hq : ToLower (f.Tag.Get g.TagRequired) = "true" := by simpa [isRequired] using hreq
  obtain ⟨_, hz⟩ := descend_preserves g env v v1 none hd
  have hnv1 : newValueOf g env f v1 = newValueOf g env f v := newValueOf_congr g env f v v1 hz
  by_cases hnv : newValueOf g env f v1 = ""
  · rw [decodeField_of_empty g env structName f v1 hnv] at hf
    split at hf
    · simp at hf
    · rename_i hnot
      simp only [Result.returned.injEq, true_and] at hf
      subst hf
      left
      cases hzero : v1.IsZero with
      | false => rfl
      | true => exact absurd ⟨hq, hzero⟩ hnot
  · rw [decodeField_of_ne g env structName f v1 hnv] at hf
    by_cases hc : f.Tag.Get g.TagConverter = ""
    · left
      rcases assignField_no_converter_success g structName f v1 v2 _ hc hf with rfl | rfl
      · have hne : (newValueOf g env f v1 == "") = false := by simpa using hnv
        simp [GoValue.IsZero, hne]
      · simp [GoValue.IsZero]
    · right
      obtain ⟨fn, hl, hfn⟩ := assignField_converter_success g structName f v1 v2 _ hc hf
      rw [hnv1] at hnv hfn
      exact ⟨hc, hnv, fn, hl, hfn⟩

/-- After a successful walk every field is settled, also in the nested
records that were descended into. -/
theorem decodePtrStruct_allRequiredSettled (g : Globals) (env : Env) :
    ∀ (fields : Fields) (structName : String) (fields1 : Fields),
      decodePtrStruct g env structName fields = .returned none fields1 →
        fields.allRequiredSettled g env fields1 := by
  refine Fields.walk_induction _ ?_ ?_
  · intro structName fields1 h
    simp only [decodePtrStruct, Result.returned.injEq, true_and] at h
    subst h
    simp [Fields.allRequiredSettled]
  · intro field val rest ihv ihr structName fields1 h
    obtain ⟨v1, v2, rest1, hd, hf, hr, rfl⟩ :=
      decodePtrStruct_cons_success g env structName field val rest fields1 h
    simp only [Fields.allRequiredSettled]
    refine ⟨decodeField_requiredSettled g env structName field val v1 v2 hd hf, ?_,
      ihr structName rest1 hr⟩
    cases val with
    | ptr target =>
      cases target with
      | struct pkg name fs =>
        simp only [descend] at hd
        cases hn : decodePtrStruct g env name fs with
        | panicked reason => simp [hn] at hd
        | returned err fs1 =>
          simp only [hn, Result.returned.injEq] at hd
          obtain ⟨rfl, _⟩ := hd
          simp only [GoValue.nestedRequiredSettled]
          exact ⟨fs1, hn, ihv pkg name fs rfl name fs1 hn⟩
      | _ => simp [GoValue.nestedRequiredSettled]
    | _ => simp [GoValue.nestedRequiredSettled]

/-- C14 as stated fails: `Car.Engine` is required; with CAR_ENGINE=0 the
converter `toFloat` returns 0.0, `Load(&Car{})` succeeds, and Engine holds
the zero value of float64. -/
theorem C14_counterexample :
    Load (registerConverts Globals.initial) (Setenv "CAR_ENGINE" "0" emptyEnv) (some newCar)
        = .returned none (some (.ptr (Car "Toyota" 0 "" nilString)))
      ∧ isRequired Globals.initial ⟨"Engine", tagCarEngine⟩ = true
      ∧ (GoValue.float64 0).IsZero = true := by
  refine ⟨rfl, by decide, rfl⟩

/-- C14 (amended): if `Load` succeeds, every required field, in the record
and in every nested record that was descended into, does not hold the zero
value of its type after `Load`, unless the field has a converter tag, a
non-empty new value was resolved for it, and the registered converter
returned for that new value the value the field now holds (`fields` is the
record before `Load`, `fields1` the record after it). -/
theorem C14_required_fields_are_filled_unless_converted (g : Globals) (env : Env)
    (pkg name : String) (fields fields1 : Fields)
    (h : Load g env (some (.ptr (.struct pkg name fields)))
      = .returned none (some (.ptr (.struct pkg name fields1)))) :
    fields.allRequiredSettled g env fields1 := by
  rw [Load_ptr_struct] at h
  cases hn : decodePtrStruct g env name fields with
  | panicked reason => simp [hn, Result.map] at h
  | returned err fs1 =>
    simp only [hn, Result.map, Result.returned.injEq, Option.some.injEq, GoValue.ptr.injEq,
      GoValue.struct.injEq, true_and] at h
    obtain ⟨rfl, rfl⟩ := h
    exact decodePtrStruct_allRequiredSettled g env fields name fs1 hn

/-- C14, the run of `TestNested`: after the successful `Load` on
`&Person{Car: &Car{}}` the required fields `Person.Name`, `Person.Age` and,
in the car that was descended into, `Car.Engine` are settled. -/
theorem C14_required_fields_are_filled_unless_converted_witness :
    Fields.allRequiredSettled (registerConverts Globals.initial) nestedEnv
      (.cons ⟨"Name", tagPersonName⟩ (.string "")
        (.cons ⟨"Age", tagPersonAge⟩ (.int 0)
          (.cons ⟨"Desc", tagPersonDesc⟩ nilString (.cons ⟨"Car", []⟩ newCar .nil))))
      (.cons ⟨"Name", tagPersonName⟩ (.string "Tom")
        (.cons ⟨"Age", tagPersonAge⟩ (.int 17)
          (.cons ⟨"Desc", tagPersonDesc⟩ (ptr "Nice person")
            (.cons ⟨"Car", []⟩
              (.ptr (Car "Toyota" 4611686018427387904 "Camry" (ptr "nothing to say")))
              .nil)))) :=
  C14_required_fields_are_filled_unless_converted (registerConverts Globals.initial) nestedEnv
    "envvar" "Person"
    (.cons ⟨"Name", tagPersonName⟩ (.string "")
      (.cons ⟨"Age", tagPersonAge⟩ (.int 0)
        (.cons ⟨"Desc", tagPersonDesc⟩ nilString (.cons ⟨"Car", []⟩ newCar .nil))))
    (.cons ⟨"Name", tagPersonName⟩ (.string "Tom")
      (.cons ⟨"Age", tagPersonAge⟩ (.int 17)
        (.cons ⟨"Desc", tagPersonDesc⟩ (ptr "Nice person")
          (.cons ⟨"Car", []⟩
            (.ptr (Car "Toyota" 4611686018427387904 "Camry" (ptr "nothing to say")))
            .nil))))
    rfl

/-- A record is its fields before the first required one followed by those
from the first required one on. -/
theorem Fields.beforeRequired_append_fromRequired (g : Globals) :
    ∀ fields : Fields, fields.beforeRequired g ++ fields.fromRequired g = fields := by
  refine Fields.walk_induction _ rfl ?_
  intro field val rest _ ihr
  by_cases hreq : isRequired g field = true
  · simp only [Fields.beforeRequired, Fields.fromRequired, hreq, if_true]
    rfl
  · have hf : isRequired g field = false := by simpa using hreq
    simp only [Fields.beforeRequired, Fields.fromRequired, hf, Bool.false_eq_true, if_false]
    rw [Fields.cons_append, ihr]

/-- In a record with a required field the part from the first required field
on starts with a required field of the record. -/
theorem Fields.fromRequired_of_exists (g : Globals) :
    ∀ fields : Fields, (∃ p ∈ fields.toList, isRequired g p.1 = true) →
      ∃ f v post, fields.fromRequired g = .cons f v post ∧ isRequired g f = true
        ∧ (f, v) ∈ fields.toList := by
  refine Fields.walk_induction _ ?_ ?_
  · rintro ⟨p, hp, _⟩
    simp [Fields.toList] at hp
  · intro field val rest _ ihr hex
    by_cases hreq : isRequired g field = true
    · refine ⟨field, val, rest, ?_, hreq, ?_⟩
      · simp [Fields.fromRequired, hreq]
      · simp [Fields.toList]
    · obtain ⟨p, hp, hpreq⟩ := hex
      simp only [Fields.toList, List.mem_cons] at hp
      rcases hp with rfl | hp
      · exact absurd hpreq hreq
      · obtain ⟨f, v, post, h1, h2, h3⟩ := ihr ⟨p, hp, hpreq⟩
        refine ⟨f, v, post, ?_, h2, ?_⟩
        · simp [Fields.fromRequired, hreq, h1]
        · simp [Fields.toList, h3]

/-- C15 as stated fails: (1) `Person{Name: "Bob", Age: 30}` has its required
fields absent from the (empty) environment and without default, and `Load`
succeeds; (2) a record `Settings` without required field loads without
error; (3) in `Server`, with the int field `Port` tagged env:"PORT" before the
required `Host`, PORT=80 and HOST unset, `Load` fails with the missing
converter error of `Port`, not with a required field error. -/
theorem C15_counterexample :
    Load Globals.initial emptyEnv (some (.ptr (Person "Bob" 30 nilString nilCar)))
        = .returned none (some (.ptr (Person "Bob" 30 nilString nilCar)))
      ∧ Load Globals.initial emptyEnv
          (some (.ptr (.struct "envvar" "Settings"
            (.cons ⟨"Mode", [("env", "MODE")]⟩ (.string "") .nil))))
        = .returned none
          (some (.ptr (.struct "envvar" "Settings"
            (.cons ⟨"Mode", [("env", "MODE")]⟩ (.string "") .nil))))
      ∧ Load Globals.initial (Setenv "PORT" "80" emptyEnv)
          (some (.ptr (.struct "envvar" "Server"
            (.cons ⟨"Port", [("env", "PORT")]⟩ (.int 0)
              (.cons ⟨"Host", [("env", "HOST"), ("required", "true")]⟩ (.string "") .nil)))))
        = .returned
          (some "Server.Port - must define converter function for non string or *string field")
          (some (.ptr (.struct "envvar" "Server"
            (.cons ⟨"Port", [("env", "PORT")]⟩ (.int 0)
              (.cons ⟨"Host", [("env", "HOST"), ("required", "true")]⟩ (.string "") .nil))))) := by
  exact ⟨rfl, rfl, rfl⟩

/-- C15 (amended): for a record that has a required field and in which every
required field holds its zero value, has no default and has no environment
value (no env tag, or the variable unset or empty): if the fields before the
first required field are decoded without error, `Load` fails with
"<RecordName>.<FieldName> is required" for the first required field. -/
theorem C15_required_fields_all_missing (g : Globals) (env : Env) (pkg name : String)
    (fields pre1 : Fields)
    (hex : ∃ p ∈ fields.toList, isRequired g p.1 = true)
    (hall : ∀ p ∈ fields.toList, isRequired g p.1 = true →
      p.2.IsZero = true ∧ p.1.Tag.Get g.TagDefault = ""
        ∧ (p.1.Tag.Get g.TagEnvVar = "" ∨ Getenv env (p.1.Tag.Get g.TagEnvVar) = ""))
    (hpre : decodePtrStruct g env name (fields.beforeRequired g) = .returned none pre1) :
    ∃ f v post, fields.fromRequired g = .cons f v post
      ∧ Load g env (some (.ptr (.struct pkg name fields)))
        = .returned (some (name ++ "." ++ f.Name ++ " is required"))
            (some (.ptr (.struct pkg name (pre1 ++ .cons f v post)))) := by
  obtain ⟨f, v, post, hfrom, hreq, hmem⟩ := Fields.fromRequired_of_exists g fields hex
  obtain ⟨hzero, hdef, henv⟩ := hall (f, v) hmem hreq
  refine ⟨f, v, post, hfrom, ?_⟩
  have hsplit := Fields.beforeRequired_append_fromRequired g fields
  rw [hfrom] at hsplit
  have hq : ToLower (f.Tag.Get g.TagRequired) = "true" := by simpa [isRequired] using hreq
  have hload : Load g env (some (.ptr (.struct pkg name
      (fields.beforeRequired g ++ .cons f v post))))
      = .returned (some (name ++ "." ++ f.Name ++ " is required"))
          (some (.ptr (.struct pkg name (pre1 ++ .cons f v post)))) := by
    rw [Load_ptr_struct,
      decodePtrStruct_at_field g env name _ pre1 post f v v hpre
        (descend_of_isZero g env v hzero),
      decodeField_of_empty g env name f v (newValueOf_none g env f v (Or.inl hdef) henv)]
    simp [hq, hzero, Result.map, getFieldName]
  rw [hsplit] at hload
  exact hload

/-- C15 on `&Person{}` with an empty environment: both required fields are
missing and `Load` fails with "Person.Name is required". -/
theorem C15_required_fields_all_missing_witness :
    ∃ f v post,
      Fields.fromRequired Globals.initial
          (.cons ⟨"Name", tagPersonName⟩ (.string "")
            (.cons ⟨"Age", tagPersonAge⟩ (.int 0)
              (.cons ⟨"Desc", tagPersonDesc⟩ nilString (.cons ⟨"Car", []⟩ nilCar .nil))))
        = .cons f v post
      ∧ Load Globals.initial emptyEnv (some (.ptr (.struct "envvar" "Person"
          (.cons ⟨"Name", tagPersonName⟩ (.string "")
            (.cons ⟨"Age", tagPersonAge⟩ (.int 0)
              (.cons ⟨"Desc", tagPersonDesc⟩ nilString (.cons ⟨"Car", []⟩ nilCar .nil)))))))
        = .returned (some ("Person" ++ "." ++ f.Name ++ " is required"))
            (some (.ptr (.struct "envvar" "Person" (Fields.nil ++ .cons f v post)))) :=
  C15_required_fields_all_missing Globals.initial emptyEnv "envvar" "Person"
    (.cons ⟨"Name", tagPersonName⟩ (.string "")
      (.cons ⟨"Age", tagPersonAge⟩ (.int 0)
        (.cons ⟨"Desc", tagPersonDesc⟩ nilString (.cons ⟨"Car", []⟩ nilCar .nil))))
    .nil
    ⟨(⟨"Name", tagPersonName⟩, .string ""), by simp [Fields.toList], by decide⟩
    (by
      intro p hp hreq
      simp only [Fields.toList, List.mem_cons, List.mem_singleton, List.not_mem_nil,
        or_false] at hp
      rcases hp with rfl | rfl | rfl | rfl
      · exact ⟨rfl, rfl, Or.inr rfl⟩
      · exact ⟨rfl, rfl, Or.inr rfl⟩
      · exact absurd hreq (by decide)
      · exact absurd hreq (by decide))
    rfl

/-- A conversion or assignment that returns an error has not touched the
field. -/
theorem assignField_error_state (g : Globals) (structName : String) (f : StructField)
    (v v2 : GoValue) (s e : String)
    (h : assignField g structName f v s = .returned (some e) v2) : v2 = v := by
  simp only [assignField] at h
  by_cases hc : f.Tag.Get g.TagConverter = ""
  · simp only [hc, ne_eq, not_true_eq_false, if_false] at h
    by_cases hs : v.TypeOf.TypeString = "string"
    · simp only [hs, if_true] at h
      cases v <;> simp [GoValue.SetString] at h
    · simp only [hs, if_false] at h
      by_cases hp : v.TypeOf.TypeString = "*string"
      · simp only [hp, if_true, GoValue.Set] at h
        by_cases ht : (ptr s).TypeOf = v.TypeOf
        · simp [ht] at h
        · simp [ht] at h
      · simp only [hp, if_false, Result.returned.injEq] at h
        exact h.2.symm
  · simp only [hc, ne_eq, not_false_eq_true, if_true] at h
    cases hl : lookupConverter g.convFunctions (f.Tag.Get g.TagConverter) with
    | none =>
      simp only [hl, Result.returned.injEq] at h
      exact h.2.symm
    | some entry =>
      cases entry with
      | none => simp [hl] at h
      | some fn =>
        simp only [hl] at h
        rcases hfn : fn s with ⟨a, m⟩
        cases m with
        | some msg =>
          simp only [hfn, Result.returned.injEq] at h
          exact h.2.symm
        | none =>
          cases a with
          | none => simp [hfn] at h
          | some x =>
            simp only [hfn] at h
            by_cases hts : v.TypeOf.TypeString = x.TypeOf.TypeString
            · simp only [hts, ne_eq, not_true_eq_false, if_false, GoValue.Set] at h
              by_cases ht : x.TypeOf = v.TypeOf
              · simp [ht] at h
              · simp [ht] at h
            · simp only [hts, ne_eq, not_false_eq_true, if_true, Result.returned.injEq] at h
              exact h.2.symm

/-- The tags of a field that return an error have not touched the field. -/
theorem decodeField_error_state (g : Globals) (env : Env) (structName : String)
    (f : StructField) (v v2 : GoValue) (e : String)
    (h : decodeField g env structName f v = .returned (some e) v2) : v2 = v := by
  by_cases hnv : newValueOf g env f v = ""
  · rw [decodeField_of_empty g env structName f v hnv] at h
    split at h
    · simp only [Result.returned.injEq] at h
      exact h.2.symm
    · simp at h
  · rw [decodeField_of_ne g env structName f v hnv] at h
    exact assignField_error_state g structName f v v2 _ e h

/-- An error of the nested descent is an error of the walk of the record
behind the pointer. -/
theorem descend_error (g : Globals) (env : Env) (v v1 : GoValue) (e : String)
    (h : descend g env v = .returned (some e) v1) :
    ∃ pkg name fields fields1, v = .ptr (.struct pkg name fields)
      ∧ v1 = .ptr (.struct pkg name fields1)
      ∧ decodePtrStruct g env name fields = .returned (some e) fields1 := by
  cases v with
  | ptr target =>
    cases target with
    | struct pkg name fs =>
      simp only [descend] at h
      cases hn : decodePtrStruct g env name fs with
      | panicked reason => simp [hn] at h
      | returned err fs1 =>
        simp only [hn, Result.returned.injEq] at h
        obtain ⟨rfl, rfl⟩ := h
        exact ⟨pkg, name, fs, fs1, rfl, rfl, hn⟩
    | _ => simp [descend] at h
  | _ => simp [descend] at h

/-- Where a failing walk stops: after a prefix decoded without error, at a
field whose nested descent or whose own tags return the error; the field's
own value and the fields after it are untouched. -/
theorem decodePtrStruct_error (g : Globals) (env : Env) :
    ∀ (fields : Fields) (structName : String) (e : String) (fields1 : Fields),
      decodePtrStruct g env structName fields = .returned (some e) fields1 →
        ∃ pre pre1 f v v1 post, fields = pre ++ .cons f v post
          ∧ decodePtrStruct g env structName pre = .returned none pre1
          ∧ fields1 = pre1 ++ .cons f v1 post
          ∧ ((descend g env v = .returned none v1
                ∧ decodeField g env structName f v1 = .returned (some e) v1)
              ∨ ∃ pkg name nested nested1, v = .ptr (.struct pkg name nested)
                  ∧ v1 = .ptr (.struct pkg name nested1)
                  ∧ decodePtrStruct g env name nested = .returned (some e) nested1) := by
  refine Fields.walk_induction _ ?_ ?_
  · intro structName e fields1 h
    simp [decodePtrStruct] at h
  · intro field val rest _ ihr structName e fields1 h
    simp only [decodePtrStruct] at h
    cases hd : descend g env val with
    | panicked reason => simp [hd] at h
    | returned err v1 =>
      cases err with
      | some e1 =>
        simp only [hd, Result.returned.injEq, Option.some.injEq] at h
        obtain ⟨rfl, rfl⟩ := h
        exact ⟨.nil, .nil, field, val, v1, rest, rfl, by simp [decodePtrStruct], rfl,
          Or.inr (descend_error g env val v1 e1 hd)⟩
      | none =>
        simp only [hd] at h
        cases hf : decodeField g env structName field v1 with
        | panicked reason => simp [hf] at h
        | returned err v2 =>
          cases err with
          | some e1 =>
            simp only [hf, Result.returned.injEq, Option.some.injEq] at h
            obtain ⟨rfl, rfl⟩ := h
            have hv := decodeField_error_state g env structName field v1 v2 e1 hf
            subst hv
            exact ⟨.nil, .nil, field, val, v2, rest, rfl, by simp [decodePtrStruct], rfl,
              Or.inl ⟨hd, hf⟩⟩
          | none =>
            simp only [hf] at h
            cases hx : decodePtrStruct g env structName rest with
            | panicked reason => simp [hx] at h
            | returned err rest1 =>
              simp only [hx, Result.returned.injEq] at h
              obtain ⟨rfl, rfl⟩ := h
              obtain ⟨pre, pre1, f, v, w, post, hsplit, hpre, hres, hcase⟩ :=
                ihr structName e rest1 hx
              refine ⟨.cons field val pre, .cons field v2 pre1, f, v, w, post, ?_, ?_, ?_,
                hcase⟩
              · rw [hsplit, Fields.cons_append]
              · exact decodePtrStruct_cons_of_success g env structName field val v1 v2 pre pre1
                  hd hf hpre
              · rw [hres, Fields.cons_append]

/-- C16: when `Load` fails with the error `e`, the record splits at a field
`f` so that the fields before `f` were decoded without error and hold what
was assigned to them (`pre1`), the fields after `f` hold what they held
before the call, and either the own tags of `f` returned `e`, `f` holding
the value it had (for a non-nil pointer to a record: the pointer, behind
which the record has been decoded), or `f` is a non-nil pointer to a record
on which `Load` fails with `e`, ending in the state `nested1` to which this
statement applies again. -/
theorem C16_fail_fast_without_rollback (g : Globals) (env : Env) (pkg name : String)
    (fields : Fields) (e : String) (st : Option GoValue)
    (h : Load g env (some (.ptr (.struct pkg name fields))) = .returned (some e) st) :
    ∃ pre pre1 f v v1 post, fields = pre ++ .cons f v post
      ∧ decodePtrStruct g env name pre = .returned none pre1
      ∧ st = some (.ptr (.struct pkg name (pre1 ++ .cons f v1 post)))
      ∧ ((descend g env v = .returned none v1
            ∧ decodeField g env name f v1 = .returned (some e) v1)
          ∨ ∃ nestedPkg nestedName nested nested1,
              v = .ptr (.struct nestedPkg nestedName nested)
              ∧ v1 = .ptr (.struct nestedPkg nestedName nested1)
              ∧ Load g env (some (.ptr (.struct nestedPkg nestedName nested)))
                = .returned (some e) (some (.ptr (.struct nestedPkg nestedName nested1)))) := by
  rw [Load_ptr_struct] at h
  cases hn : decodePtrStruct g env name fields with
  | panicked reason => simp [hn, Result.map] at h
  | returned err fs1 =>
    simp only [hn, Result.map, Result.returned.injEq] at h
    obtain ⟨rfl, rfl⟩ := h
    obtain ⟨pre, pre1, f, v, v1, post, hsplit, hpre, hres, hcase⟩ :=
      decodePtrStruct_error g env fields name e fs1 hn
    refine ⟨pre, pre1, f, v, v1, post, hsplit, hpre, by rw [hres], ?_⟩
    rcases hcase with hown | ⟨p, n, nested, nested1, hv, hv1, hnested⟩
    · exact Or.inl hown
    · refine Or.inr ⟨p, n, nested, nested1, hv, hv1, ?_⟩
      rw [Load_ptr_struct, hnested]
      rfl

/-- C16, the fifth run of `TestRequired`: `Load(&Person{})` with
PERSON_NAME=Tom and PERSON_AGE=7 fails at Age; the record splits as the
statement says. -/
theorem C16_fail_fast_without_rollback_witness :
    ∃ pre pre1 f v v1 post,
      (Fields.cons ⟨"Name", tagPersonName⟩ (.string "")
          (.cons ⟨"Age", tagPersonAge⟩ (.int 0)
            (.cons ⟨"Desc", tagPersonDesc⟩ nilString (.cons ⟨"Car", []⟩ nilCar .nil))))
        = pre ++ .cons f v post
      ∧ decodePtrStruct (registerConverts Globals.initial)
          (Setenv "PERSON_AGE" "7" (Setenv "PERSON_NAME" "Tom" emptyEnv)) "Person" pre
        = .returned none pre1
      ∧ (some (GoValue.ptr (Person "Tom" 0 nilString nilCar)) : Option GoValue)
        = some (GoValue.ptr (GoValue.struct "envvar" "Person" (pre1 ++ .cons f v1 post)))
      ∧ ((descend (registerConverts Globals.initial)
              (Setenv "PERSON_AGE" "7" (Setenv "PERSON_NAME" "Tom" emptyEnv)) v
            = .returned none v1
            ∧ decodeField (registerConverts Globals.initial)
                (Setenv "PERSON_AGE" "7" (Setenv "PERSON_NAME" "Tom" emptyEnv)) "Person" f v1
              = .returned (some "Person.Age - age must be larger than 10") v1)
          ∨ ∃ nestedPkg nestedName nested nested1,
              v = .ptr (.struct nestedPkg nestedName nested)
              ∧ v1 = .ptr (.struct nestedPkg nestedName nested1)
              ∧ Load (registerConverts Globals.initial)
                  (Setenv "PERSON_AGE" "7" (Setenv "PERSON_NAME" "Tom" emptyEnv))
                  (some (.ptr (.struct nestedPkg nestedName nested)))
                = .returned (some "Person.Age - age must be larger than 10")
                    (some (.ptr (.struct nestedPkg nestedName nested1)))) :=
  C16_fail_fast_without_rollback (registerConverts Globals.initial)
    (Setenv "PERSON_AGE" "7" (Setenv "PERSON_NAME" "Tom" emptyEnv)) "envvar" "Person"
    (.cons ⟨"Name", tagPersonName⟩ (.string "")
      (.cons ⟨"Age", tagPersonAge⟩ (.int 0)
        (.cons ⟨"Desc", tagPersonDesc⟩ nilString (.cons ⟨"Car", []⟩ nilCar .nil))))
    "Person.Age - age must be larger than 10"
    (some (.ptr (Person "Tom" 0 nilString nilCar))) rfl

/-- C17: after `Converter(k, fn)` the lookup of `k` yields `fn` and the
lookup of every other key is as before, whatever the registry was (nil
included); after `ClearConverters` the lookup of every key fails. -/
theorem C17_registry_is_last_write_wins (g : Globals) (k : String)
    (fn : Option ConverterFunc) :
    lookupConverter (Converter k fn g).convFunctions k = some fn
      ∧ (∀ other, other ≠ k →
          lookupConverter (Converter k fn g).convFunctions other
            = lookupConverter g.convFunctions other)
      ∧ ∀ key, lookupConverter (ClearConverters g).convFunctions key = none := by
  refine ⟨?_, ?_, fun key => rfl⟩
  · simp [Converter, lookupConverter]
  · intro other hne
    cases hg : g.convFunctions <;> simp [Converter, lookupConverter, hne, hg]

/-- C17, the registry of `TestRequired` (env_test.go 37-46): `toAge` is
registered as the identity, the registry is cleared, and `toAge` is
registered anew; the lookup yields the second function. -/
theorem C17_registry_is_last_write_wins_witness :
    lookupConverter (Converter "toAge" (some toAge)
        (ClearConverters (Converter "toAge" (some toAgeIdentity) Globals.initial))).convFunctions
      "toAge" = some (some toAge) :=
  (C17_registry_is_last_write_wins
    (ClearConverters (Converter "toAge" (some toAgeIdentity) Globals.initial))
    "toAge" (some toAge)).1

/-- C18: under two environments that differ only in variables unset in one
and set to the empty string in the other, `Load` gives the same result
(nil, the same error, or the same panic) and the same final record. -/
theorem C18_unset_and_empty_are_alike (g : Globals) (env1 env2 : Env) (v : Option GoValue)
    (h : ∀ key, env1 key = env2 key ∨ (env1 key = none ∧ env2 key = some "")
      ∨ (env1 key = some "" ∧ env2 key = none)) :
    Load g env1 v = Load g env2 v := by
  have hget : ∀ key, Getenv env1 key = Getenv env2 key := by
    intro key
    rcases h key with h1 | ⟨h1, h2⟩ | ⟨h1, h2⟩
    · simp [Getenv, h1]
    · simp [Getenv, h1, h2]
    · simp [Getenv, h1, h2]
  cases v with
  | none => rfl
  | some x =>
    simp only [Load]
    split
    · split
      · rename_i pkg name fs _
        rw [decodePtrStruct_env_congr g env1 env2 hget fs name]
      · rfl
      · rfl
    · rfl

/-- C18 on `&Person{}`: PERSON_NAME unset and PERSON_NAME set to the empty
string give the same result. -/
theorem C18_unset_and_empty_are_alike_witness :
    Load Globals.initial emptyEnv (some newPerson)
      = Load Globals.initial (Setenv "PERSON_NAME" "" emptyEnv) (some newPerson) :=
  C18_unset_and_empty_are_alike Globals.initial emptyEnv (Setenv "PERSON_NAME" "" emptyEnv)
    (some newPerson)
    (by
      intro key
      by_cases hk : key = "PERSON_NAME"
      · exact Or.inr (Or.inl ⟨rfl, by simp [Setenv, hk]⟩)
      · exact Or.inl (by simp [Setenv, emptyEnv, hk]))

/-- C19 (the code departs from the claim): with `toAge` registered as a
converter that returns a nil value and a nil error, PERSON_NAME=Tom and
PERSON_AGE=17, `Load(&Person{})` does not return: `reflect.ValueOf(nil)` is
the zero Value, on which `Type()` panics (env.go 92). -/
theorem C19_Load_panics_on_nil_converter_result :
    Load (Converter "toAge" (some (fun _ => (none, none))) Globals.initial)
        (Setenv "PERSON_AGE" "17" (Setenv "PERSON_NAME" "Tom" emptyEnv)) (some newPerson)
      = .panicked "reflect: call of reflect.Value.Type on zero Value" := by
  rfl

/-- The printed form of a pointer to a record type is neither "string" nor
"*string". -/
theorem TypeString_ptr_struct (pkg name : String) :
    (GoType.ptr (.struct pkg name)).TypeString ≠ "string"
      ∧ (GoType.ptr (.struct pkg name)).TypeString ≠ "*string" := by
  constructor
  · intro h
    have h1 := congrArg String.data h
    simp [GoType.TypeString, String.data_append] at h1
  · intro h
    have hs : ("*string" : String) = "*" ++ "string" := by decide
    simp only [GoType.TypeString] at h
    rw [hs] at h
    have h1 := congrArg String.data (append_left_cancel_string _ _ _ h)
    simp only [String.data_append] at h1
    have hmem : '.' ∈ pkg.data ++ ".".data ++ name.data := by simp
    rw [h1] at hmem
    revert hmem
    decide

/-- C20: the own tags of a field of type pointer to record are processed. A
nil pointer whose required tag is "true" ignoring case, without default and
without environment value, makes `Load` fail with "<RecordName>.<FieldName>
is required". A pointer, nil or not (its nested descent having raised no
error), without converter tag and with a resolved new value makes `Load`
fail with the "must define converter function for non string or *string
field" error. -/
theorem C20_tags_of_pointer_field_are_processed (g : Globals) (env : Env) (pkg name : String)
    (pre pre1 post : Fields) (f : StructField) (nestedPkg nestedName : String)
    (hpre : decodePtrStruct g env name pre = .returned none pre1) :
    (ToLower (f.Tag.Get g.TagRequired) = "true" → f.Tag.Get g.TagDefault = "" →
        (f.Tag.Get g.TagEnvVar = "" ∨ Getenv env (f.Tag.Get g.TagEnvVar) = "") →
        Load g env (some (.ptr (.struct pkg name
            (pre ++ .cons f (.nilPtr (.struct nestedPkg nestedName)) post))))
          = .returned (some (name ++ "." ++ f.Name ++ " is required"))
              (some (.ptr (.struct pkg name
                (pre1 ++ .cons f (.nilPtr (.struct nestedPkg nestedName)) post)))))
      ∧ ∀ v v1 : GoValue, v.TypeOf = .ptr (.struct nestedPkg nestedName) →
          descend g env v = .returned none v1 →
          f.Tag.Get g.TagConverter = "" → newValueOf g env f v ≠ "" →
          Load g env (some (.ptr (.struct pkg name (pre ++ .cons f v post))))
            = .returned (some (name ++ "." ++ f.Name
                ++ " - must define converter function for non string or *string field"))
                (some (.ptr (.struct pkg name (pre1 ++ .cons f v1 post)))) := by
  constructor
  · intro hreq hdef henv
    rw [Load_ptr_struct,
      decodePtrStruct_at_field g env name pre pre1 post f _ _ hpre
        (descend_of_isZero g env (.nilPtr (.struct nestedPkg nestedName)) rfl),
      decodeField_of_empty g env name f _
        (newValueOf_none g env f _ (Or.inl hdef) henv)]
    simp [hreq, GoValue.IsZero, Result.map, getFieldName]
  · intro v v1 htype hdesc hconv hnv
    obtain ⟨ht, hz⟩ := descend_preserves g env v v1 none hdesc
    have hnv1 : newValueOf g env f v1 = newValueOf g env f v := newValueOf_congr g env f v v1 hz
    obtain ⟨hs, hp⟩ := TypeString_ptr_struct nestedPkg nestedName
    rw [Load_ptr_struct, decodePtrStruct_at_field g env name pre pre1 post f v v1 hpre hdesc,
      decodeField_of_ne g env name f v1 (by rw [hnv1]; exact hnv)]
    simp [assignField, hconv, ht, htype, hs, hp, Result.map, getFieldName]

/-- C20 on `Garage`, a record with one field `Car` of type `*Car` tagged
env:"GARAGE_CAR" required:"true": with the pointer nil and GARAGE_CAR unset
`Load` fails with "Garage.Car is required"; with GARAGE_CAR=x it fails with
the missing converter error. -/
theorem C20_tags_of_pointer_field_are_processed_witness :
    Load Globals.initial emptyEnv
        (some (.ptr (.struct "envvar" "Garage"
          (.cons ⟨"Car", [("env", "GARAGE_CAR"), ("required", "true")]⟩ nilCar .nil))))
        = .returned (some "Garage.Car is required")
          (some (.ptr (.struct "envvar" "Garage"
            (.cons ⟨"Car", [("env", "GARAGE_CAR"), ("required", "true")]⟩ nilCar .nil))))
      ∧ Load Globals.initial (Setenv "GARAGE_CAR" "x" emptyEnv)
          (some (.ptr (.struct "envvar" "Garage"
            (.cons ⟨"Car", [("env", "GARAGE_CAR"), ("required", "true")]⟩ nilCar .nil))))
        = .returned
          (some "Garage.Car - must define converter function for non string or *string field")
          (some (.ptr (.struct "envvar" "Garage"
            (.cons ⟨"Car", [("env", "GARAGE_CAR"), ("required", "true")]⟩ nilCar .nil)))) :=
  ⟨(C20_tags_of_pointer_field_are_processed Globals.initial emptyEnv "envvar" "Garage"
      .nil .nil .nil ⟨"Car", [("env", "GARAGE_CAR"), ("required", "true")]⟩ "envvar" "Car"
      rfl).1 (by decide) rfl (Or.inr rfl),
   (C20_tags_of_pointer_field_are_processed Globals.initial (Setenv "GARAGE_CAR" "x" emptyEnv)
      "envvar" "Garage" .nil .nil .nil
      ⟨"Car", [("env", "GARAGE_CAR"), ("required", "true")]⟩ "envvar" "Car"
      rfl).2 nilCar nilCar rfl rfl rfl (by decide)⟩

end envvar
